import Mathlib

set_option maxHeartbeats 1000000

namespace HTN

/-! Shallow embedding of the hypertension decision-support repository
(`gp_htn_support.py` and `app.py`).  Python floats carrying decimal
clinical measurements are modelled as rationals where the code only
compares and adds them; the SCORE2 calculator, which uses `math.exp` and
`math.log`, is modelled over the real numbers further below. -/

/-! ### gp_htn_support.py -/

/-- Embedding of the `Patient` dataclass (gp_htn_support.py). -/
structure Patient where
  age : Int
  sex : String
  sbp : Option Int := none
  score2_pct : Option ℚ := none
  smoker : Option Bool := none
  na : Option ℚ := none
  k : Option ℚ := none
  egfr : Option ℚ := none
  creat : Option ℚ := none
  urate : Option ℚ := none
  diabetes : Bool := false
  ckd : Bool := false
  cad : Bool := false
  heart_failure : Bool := false
  af : Bool := false
  stroke_tia : Bool := false
  pregnancy : Bool := false
  gout : Bool := false
  asthma_copd : Bool := false
  peripheral_edema_tendency : Bool := false
  proteinuria : Bool := false

/-- Embedding of `intervention_threshold`.  The Python function returns
`float('nan')` outside the validated 40–75 age range; `none` models NaN. -/
def intervention_threshold (age : Int) : Option ℚ :=
  if 40 ≤ age ∧ age ≤ 59 then some 5.0
  else if 60 ≤ age ∧ age ≤ 69 then some 7.5
  else if 70 ≤ age ∧ age ≤ 75 then some 10.0
  else none

/-- Result dictionary of `score2_intervention_flag`.  The `threshold`
field is modelled as the rational threshold value itself (`none` for the
NaN case) rather than the Python-formatted `"5.0%"` string. -/
structure Score2Flag where
  threshold : Option ℚ
  intervention_recommended : Option String
  note : String

/-- Embedding of `score2_intervention_flag`. -/
def score2_intervention_flag (p : Patient) : Score2Flag :=
  let th := intervention_threshold p.age
  if p.score2_pct = none ∨ ¬(40 ≤ p.age ∧ p.age ≤ 75) then
    { threshold := th
      intervention_recommended := none
      note := "Enter SCORE2 from DSAM/ESC chart to assess threshold crossing (valid ages 40–75)." }
  else
    { threshold := th
      intervention_recommended := some (if th.getD 0 ≤ p.score2_pct.getD 0 then "Yes" else "No")
      note := "Threshold per DSAM: 40–59 ≥5%, 60–69 ≥7.5%, 70–75 ≥10%." }

/-- Embedding of the inner `unique` helper of `med_recommendations`:
the `seen` accumulator set is modelled as a list. -/
def uniqueAux {α : Type} [DecidableEq α] (seen : List α) : List α → List α
  | [] => []
  | x :: xs => if x ∈ seen then uniqueAux seen xs else x :: uniqueAux (x :: seen) xs

/-- `unique` from `med_recommendations`: remove duplicates, keeping the
first occurrence of each element. -/
def unique {α : Type} [DecidableEq α] (l : List α) : List α := uniqueAux [] l

/-- Modelled from the spec: first-occurrence deduplication as described in
the specification ("deduplicated preserving first-occurrence order"):
keep the head, then recursively dedup the tail with the head removed. -/
def specDedup {α : Type} [DecidableEq α] : List α → List α
  | [] => []
  | x :: xs => x :: specDedup (xs.filter (fun y => y ≠ x))
termination_by l => l.length
decreasing_by
  simp only [List.length_cons]
  exact Nat.lt_succ_of_le (List.length_filter_le _ _)

/-- Result dictionary of `med_recommendations`. -/
structure MedRec where
  first_line_options : List String
  combinations : List String
  avoid_or_caution : List String
  rationales : List String
deriving DecidableEq, Repr

/-- Potassium rule of `med_recommendations` (avoid entries). -/
def gpKAvoid (p : Patient) : List String :=
  match p.k with
  | some kv =>
    if 5 ≤ kv then
      ["ACE-hæmmer (midlertidigt/individuelt)", "ARB (midlertidigt/individuelt)",
       "K+-besparende diuretika (fx spironolakton)"]
    else if kv ≤ 3.4 then
      ["Tiazid(-lign.) diuretikum som monoterapi (overvej kombination med ACE/ARB eller K+-tilskud/kost)"]
    else []
  | none => []

/-- Potassium rule of `med_recommendations` (rationale entries). -/
def gpKRat (p : Patient) : List String :=
  match p.k with
  | some kv =>
    if 5 ≤ kv then
      ["Hyperkaliæmi øger risiko ved ACE/ARB/K+-besparende; korrigér K+ og vurder årsag først."]
    else if kv ≤ 3.4 then
      ["Hypokaliæmi kan forværres af tiazider; korrigér og/eller kombiner for at balancere K+."]
    else []
  | none => []

/-- Sodium rule of `med_recommendations` (avoid entries); note the
non-strict `p.na <= 133` comparison in the source. -/
def gpNaAvoid (p : Patient) : List String :=
  match p.na with
  | some nv => if nv ≤ 133 then ["Tiazid(-lign.) diuretikum"] else []
  | none => []

/-- Sodium rule of `med_recommendations` (rationale entries). -/
def gpNaRat (p : Patient) : List String :=
  match p.na with
  | some nv =>
    if nv ≤ 133 then ["Hyponatriæmi kan forværres af tiazider; undgå tilstanden er korrigeret."] else []
  | none => []

/-- Low-eGFR rule of `med_recommendations` (avoid entries). -/
def gpEgfrAvoid (p : Patient) : List String :=
  match p.egfr with
  | some ev =>
    if ev < 30 then
      ["Tiazid(-lign.) diuretikum (nedsat effekt ved eGFR <30)", "K+-besparende diuretika (forsigtighed)"]
    else []
  | none => []

/-- Low-eGFR rule of `med_recommendations` (rationale entries). -/
def gpEgfr30Rat (p : Patient) : List String :=
  match p.egfr with
  | some ev =>
    if ev < 30 then
      ["Tiazider er ofte ineffektive ved eGFR <30; overvej loop-diuretika ved volumenoverload."]
    else []
  | none => []

/-- Renal-protection rule of `med_recommendations` (first-line entries);
the CKD/proteinuria flags only fire when eGFR is present, as in the
source's nesting. -/
def gpRenalFl (p : Patient) : List String :=
  match p.egfr with
  | some ev =>
    if ev < 60 ∨ p.ckd ∨ p.proteinuria then
      ["ACE-hæmmer eller ARB (nefroprotektion ved proteinuri/CKD)"]
    else []
  | none => []

/-- Renal-protection rule of `med_recommendations` (rationale entries). -/
def gpRenalRat (p : Patient) : List String :=
  match p.egfr with
  | some ev =>
    if ev < 60 ∨ p.ckd ∨ p.proteinuria then
      ["ACE/ARB reducerer albuminuri og beskytter nyrefunktion. Monitorér kreatinin/K+."]
    else []
  | none => []

/-- Diabetes rule of `med_recommendations` (first-line entries). -/
def gpDmFl (p : Patient) : List String :=
  if p.diabetes then ["ACE-hæmmer eller ARB (især ved albuminuri)"] else []

/-- Diabetes rule of `med_recommendations` (rationale entries). -/
def gpDmRat (p : Patient) : List String :=
  if p.diabetes then ["Ved diabetes og albuminuri anbefales RAAS-blokade som grundstamme."] else []

/-- CAD/stroke rule of `med_recommendations` (first-line entries). -/
def gpCadFl (p : Patient) : List String :=
  if p.cad || p.stroke_tia then ["ACE-hæmmer eller ARB", "DHP-CCB (amlodipin)"] else []

/-- CAD/stroke rule of `med_recommendations` (rationale entries). -/
def gpCadRat (p : Patient) : List String :=
  if p.cad || p.stroke_tia then
    ["Sekundærprofylakse: RAAS-blokade og/eller CCB har outcome-data; beta-blokker ved angina/post-MI."]
  else []

/-- Heart-failure rule of `med_recommendations` (first-line entries). -/
def gpHfFl (p : Patient) : List String :=
  if p.heart_failure then
    ["ACE-hæmmer eller ARB", "Beta-blokker (HF-udgave)",
     "Mineralokortikoid-antagonist (ved HFrEF og efter K+/nyrer)"]
  else []

/-- Heart-failure rule of `med_recommendations` (rationale entries). -/
def gpHfRat (p : Patient) : List String :=
  if p.heart_failure then
    ["HFrEF: livsforlængende behandling. Vurder ejection fraction og guideline-specifik titrering."]
  else []

/-- Atrial-fibrillation rule of `med_recommendations` (first-line entries). -/
def gpAfFl (p : Patient) : List String :=
  if p.af then ["Beta-blokker (hvis frekvenskontrol ønskes)"] else []

/-- Atrial-fibrillation rule of `med_recommendations` (rationale entries). -/
def gpAfRat (p : Patient) : List String :=
  if p.af then ["AF: beta-blokker kan være hensigtsmæssig ved behov for frekvenskontrol."] else []

/-- Urate test of the gout rule: `p.urate is not None and p.urate > 0.42`. -/
def gpUrateOver (p : Patient) : Bool :=
  match p.urate with
  | some uv => decide ((0.42 : ℚ) < uv)
  | none => false

/-- Gout/urate rule of `med_recommendations` (avoid entries). -/
def gpGoutAvoid (p : Patient) : List String :=
  if p.gout || gpUrateOver p then ["Tiazid(-lign.) diuretikum"] else []

/-- Gout/urate rule of `med_recommendations` (rationale entries). -/
def gpGoutRat (p : Patient) : List String :=
  if p.gout || gpUrateOver p then ["Tiazider kan øge urinsyre og trigge urinsyregigt."] else []

/-- Asthma/COPD rule of `med_recommendations` (avoid entries). -/
def gpAsthmaAvoid (p : Patient) : List String :=
  if p.asthma_copd then ["Ikke-selektive beta-blokkere"] else []

/-- Asthma/COPD rule of `med_recommendations` (rationale entries). -/
def gpAsthmaRat (p : Patient) : List String :=
  if p.asthma_copd then ["Bronkokonstriktionsrisiko ved ikke-selektive beta-blokkere."] else []

/-- Edema-tendency rule of `med_recommendations` (avoid entries). -/
def gpEdemaAvoid (p : Patient) : List String :=
  if p.peripheral_edema_tendency then
    ["DHP-CCB som monoterapi (overvej kombination med ACE/ARB)"]
  else []

/-- Edema-tendency rule of `med_recommendations` (rationale entries). -/
def gpEdemaRat (p : Patient) : List String :=
  if p.peripheral_edema_tendency then
    ["Amlodipin kan give ankelsvulst; RAAS-kombination reducerer risiko."]
  else []

/-- Pregnancy rule of `med_recommendations` (avoid entries). -/
def gpPregAvoid (p : Patient) : List String :=
  if p.pregnancy then ["ACE-hæmmer", "ARB", "MRA (spironolakton/eplerenon)"] else []

/-- Pregnancy rule of `med_recommendations` (first-line entries);
the source appends these after any earlier first-line entries, it does
not clear the list. -/
def gpPregFl (p : Patient) : List String :=
  if p.pregnancy then ["Labetalol", "Nifedipin (retard)", "Methyldopa"] else []

/-- Pregnancy rule of `med_recommendations` (rationale entries). -/
def gpPregRat (p : Patient) : List String :=
  if p.pregnancy then
    ["Graviditet: undgå RAAS-blokade. Foretræk labetalol, nifedipin (retard) eller methyldopa."]
  else []

/-- First-line list of `med_recommendations` before the default fill. -/
def gpFirstLine0 (p : Patient) : List String :=
  gpRenalFl p ++ gpDmFl p ++ gpCadFl p ++ gpHfFl p ++ gpAfFl p ++ gpPregFl p

/-- Default first-line triple of `med_recommendations`, appended only
when no rule has added a first-line class. -/
def gpDefaultFl : List String :=
  ["ACE-hæmmer ELLER ARB", "DHP-CCB (amlodipin)",
   "Tiazid-lignende diuretikum (indapamid/klortalidon)"]

/-- First-line list of `med_recommendations` after the default fill. -/
def gpFirstLine (p : Patient) : List String :=
  if (gpFirstLine0 p).isEmpty then gpFirstLine0 p ++ gpDefaultFl else gpFirstLine0 p

/-- Fixed combination suggestions of `med_recommendations`. -/
def gpCombos : List String :=
  ["ACE-hæmmer/ARB + DHP-CCB", "ACE-hæmmer/ARB + tiazid-lignende diuretikum",
   "DHP-CCB + tiazid-lignende diuretikum (hvis RAAS-blokade ikke tåles)"]

/-- Raw avoid list of `med_recommendations` (rule order as in the source). -/
def gpAvoid (p : Patient) : List String :=
  gpKAvoid p ++ gpNaAvoid p ++ gpEgfrAvoid p ++ gpGoutAvoid p ++ gpAsthmaAvoid p ++
    gpEdemaAvoid p ++ gpPregAvoid p

/-- Raw rationale list of `med_recommendations` (rule order as in the source). -/
def gpRationales (p : Patient) : List String :=
  gpKRat p ++ gpNaRat p ++ gpEgfr30Rat p ++ gpRenalRat p ++ gpDmRat p ++ gpCadRat p ++
    gpHfRat p ++ gpAfRat p ++ gpGoutRat p ++ gpAsthmaRat p ++ gpEdemaRat p ++ gpPregRat p

/-- Embedding of `med_recommendations`: the rule blocks append to the
output lists in source order, and the four raw lists are passed through
`unique` before being returned. -/
def med_recommendations (p : Patient) : MedRec :=
  { first_line_options := unique (gpFirstLine p)
    combinations := unique gpCombos
    avoid_or_caution := unique (gpAvoid p)
    rationales := unique (gpRationales p) }

/-! ### app.py — helpers, grading, treatment indication -/

/-- Embedding of `clamp` from app.py (rational version, used by the
rule engine; a real version appears with the SCORE2 calculator). -/
def clampQ (v lo hi : ℚ) : ℚ := max lo (min hi v)

/-- Reference ranges returned by `age_adjusted_refs` (the dict keys
"na", "k", "egfr", "urate", each an (low, high) pair). -/
structure RefRanges where
  na : ℚ × ℚ
  k : ℚ × ℚ
  egfr : ℚ × ℚ
  urate : ℚ × ℚ
deriving DecidableEq, Repr

/-- Embedding of `age_adjusted_refs` (app.py): sequential mutation of
the band edges is modelled by chained lets. -/
def age_adjusted_refs (age : ℤ) : RefRanges :=
  let na_low0 : ℚ := 137.0
  let na_high0 : ℚ := 145.0
  let k_low : ℚ := 3.5
  let k_high0 : ℚ := 5.0
  let egfr_high : ℚ := 120.0
  let na_low1 := if 70 ≤ age then na_low0 - 0.5 else na_low0
  let na_high1 := if 70 ≤ age then na_high0 - 0.5 else na_high0
  let k_high1 := if 70 ≤ age then k_high0 + 0.1 else k_high0
  let na_low2 := if 80 ≤ age then na_low1 - 0.5 else na_low1
  let na_high2 := if 80 ≤ age then na_high1 - 0.5 else na_high1
  let k_high2 := if 80 ≤ age then k_high1 + 0.1 else k_high1
  let expected := if age ≤ 40 then egfr_high else max 60.0 (egfr_high - ((age : ℚ) - 40) * 1.0)
  let egfr_low : ℚ := 60.0
  { na := (na_low2, na_high2), k := (k_low, k_high2), egfr := (egfr_low, expected),
    urate := (0.20, 0.42) }

/-- Modelled from the spec: the reference-range description of §4.1 —
baseline intervals sodium [137,145], potassium [3.5,5.0], eGFR upper
bound 120; two independent step adjustments, one at age ≥ 70 and one at
age ≥ 80, each narrowing the sodium band by 0.5 on both ends and raising
the potassium upper bound by 0.1; eGFR expected upper bound decaying
linearly by 1.0 per year past age 40, floored at 60, starting from 120. -/
def specAgeRefs (age : ℤ) : RefRanges :=
  let steps : ℚ := (if 70 ≤ age then 1 else 0) + (if 80 ≤ age then 1 else 0)
  { na := (137 - steps * 0.5, 145 - steps * 0.5)
    k := (3.5, 5.0 + steps * 0.1)
    egfr := (60, if age ≤ 40 then 120 else max 60 (120 - ((age : ℚ) - 40)))
    urate := (0.20, 0.42) }

/-- Embedding of `has_hyperkalemia` (app.py); the app always passes a
present float, so the `is not None` guard is vacuous. -/
def has_hyperkalemia (k_val : ℚ) : Bool := decide (5 ≤ k_val)

/-- Embedding of `has_hyponatremia` (app.py): strict `< 133.0`. -/
def has_hyponatremia (na_val : ℚ) : Bool := decide (na_val < 133)

/-- Embedding of `egfr_low` (app.py). -/
def egfr_lowApp (egfr_val : ℚ) : Bool := decide (egfr_val < 30)

/-- Embedding of `gout_risk` (app.py). -/
def gout_risk (urate_val : ℚ) (gout_flag : Bool) : Bool :=
  gout_flag || decide ((0.42 : ℚ) < urate_val)

/-- Embedding of `sbp_grade` (app.py). -/
def sbp_grade (sbp_val : ℚ) : String :=
  if 180 ≤ sbp_val then "Grad 3"
  else if 160 ≤ sbp_val then "Grad 2"
  else if 140 ≤ sbp_val then "Grad 1"
  else if 130 ≤ sbp_val then "Højt-normal"
  else "Normal"

/-- Embedding of `indication_for_treatment` (app.py): returns the
(mode, reason) pair. -/
def indication_for_treatment (sbp_val score2_pct : ℚ) (high_risk_flags : Bool) :
    String × String :=
  let grade := sbp_grade sbp_val
  if grade = "Grad 2" ∨ grade = "Grad 3" then
    ("Pharmacologic", grade ++ ": behandlingsindikation.")
  else if grade = "Grad 1" then
    if high_risk_flags ∨ 7.5 ≤ score2_pct then
      ("Pharmacologic", "Grad 1 + forhøjet risiko/komorbiditet: behandlingsindikation.")
    else
      ("Conservative", "Grad 1 uden højrisiko: start livsstilsintervention og tæt kontrol.")
  else if grade = "Højt-normal" then
    if high_risk_flags ∨ 10 ≤ score2_pct then
      ("Pharmacologic", "Højt-normal + høj risiko/komorbiditet: kan overveje farmakologisk.")
    else
      ("Conservative", "Højt-normal: livsstilsintervention og revurdering.")
  else
    ("Conservative", "Normalt BT: livsstilsråd og observation.")

/-! ### app.py — `build_recommendation` -/

/-- Keyword arguments of `build_recommendation` plus the five checkboxes
of `INTERACTION_DEFS` (in the dictionary's fixed insertion order:
Lithium, NSAID (fast), Verapamil/diltiazem, Kaliumtilskud/K+-spare,
Prednisolon (høj dosis)). -/
structure BRIn where
  sbp_val : ℚ
  diabetes_flag : Bool := false
  ckd_flag : Bool := false
  proteinuria_flag : Bool := false
  cad_flag : Bool := false
  heart_failure_flag : Bool := false
  af_flag : Bool := false
  pregnancy_flag : Bool := false
  edema_flag : Bool := false
  asthma_copd_flag : Bool := false
  gout_flag : Bool := false
  na_val : ℚ := 138
  k_val : ℚ := 4.2
  egfr_val : ℚ := 85
  urate_val : ℚ := 0.35
  score2_pct : ℚ := 0
  lithium : Bool := false
  nsaid : Bool := false
  verapamil : Bool := false
  kalium : Bool := false
  prednisolon : Bool := false

/-- A first-line drug entry of `build_recommendation`
(dict with 'name', 'dose', 'note'). -/
structure FL where
  name : String
  dose : String
  note : String
deriving DecidableEq, Repr

/-- Output dictionary of `build_recommendation`; the 'conservative',
'avoid', 'rationale' and 'planb' entries are single-key text dicts in the
source and are modelled as their text strings. -/
structure RecOut where
  conservative : List String
  firstline : List FL
  avoid : List String
  rationale : List String
  planb : List String
deriving DecidableEq, Repr

/-- The `DRUGS` table of app.py, flattened to (name, dose) pairs. -/
def DRUGS_ACE : List (String × String) :=
  [("Perindopril (Coversyl®)", "2 mg x 1"), ("Ramipril (Tritace®)", "2,5 mg x 1")]

/-- CCB_DHP entries of the `DRUGS` table. -/
def DRUGS_CCB_DHP : List (String × String) := [("Amlodipin (Norvasc®)", "5 mg x 1")]

/-- THIAZIDE_LIKE entries of the `DRUGS` table. -/
def DRUGS_THIAZIDE_LIKE : List (String × String) :=
  [("Indapamid (Natrilix SR®)", "1,5 mg x 1"), ("Chlortalidon (Chlortalidon®)", "12,5 mg x 1")]

/-- MRA entries of the `DRUGS` table. -/
def DRUGS_MRA : List (String × String) := [("Spironolakton (Spiron®)", "25 mg x 1")]

/-- PREG entries of the `DRUGS` table. -/
def DRUGS_PREG : List (String × String) :=
  [("Labetalol (Trandate®)", "100–200 mg x 2"),
   ("Nifedipin dep. (Adalat®/Nifedipin®)", "30 mg x 1"),
   ("Methyldopa (Aldomet®)", "250 mg x 2–3")]

/-- Turn a (name, dose) drug list into first-line entries with a note,
mirroring the `for d in DRUGS[...]` append loops. -/
def mkFL (ds : List (String × String)) (note : String) : List FL :=
  ds.map fun d => { name := d.1, dose := d.2, note := note }

/-- `high_risk_flags` as computed in `build_recommendation`. -/
def brHighRisk (i : BRIn) : Bool :=
  i.diabetes_flag || i.ckd_flag || i.proteinuria_flag || i.heart_failure_flag ||
    i.cad_flag || i.af_flag

/-- Treatment mode chosen by `build_recommendation`. -/
def brMode (i : BRIn) : String :=
  (indication_for_treatment i.sbp_val i.score2_pct (brHighRisk i)).1

/-- Avoid entries contributed by the interaction checkboxes, in the
`INTERACTION_DEFS` iteration order (the join of each entry's target list
is written out literally). -/
def brInterAvoid (i : BRIn) : List String :=
  (if i.lithium then
     ["Interaktion (Lithium): undgå ACE-hæmmer, ARB, Tiazid(-lign.) diuretikum."] else []) ++
  (if i.nsaid then
     ["Interaktion (NSAID (fast)): undgå ACE/ARB + diuretikum (kombination)."] else []) ++
  (if i.verapamil then
     ["Interaktion (Verapamil/diltiazem): undgå Beta-blokker."] else []) ++
  (if i.kalium then
     ["Interaktion (Kaliumtilskud/K+-spare): undgå MRA (spironolakton/eplerenon), ACE-hæmmer, ARB."] else []) ++
  (if i.prednisolon then
     ["Interaktion (Prednisolon (høj dosis)): forsigtighed med Diuretika."] else [])

/-- Rationale entries contributed by the interaction checkboxes. -/
def brInterRat (i : BRIn) : List String :=
  (if i.lithium then ["Interaktion (Lithium): Øget lithium-niveau og toksicitet."] else []) ++
  (if i.nsaid then ["Interaktion (NSAID (fast)): Øget risiko for AKI ('triple whammy')."] else []) ++
  (if i.verapamil then
     ["Interaktion (Verapamil/diltiazem): Risiko for AV-blok/bradykardi i kombination."] else []) ++
  (if i.kalium then ["Interaktion (Kaliumtilskud/K+-spare): Hyperkaliæmi-risiko."] else []) ++
  (if i.prednisolon then
     ["Interaktion (Prednisolon (høj dosis)): Væskeretention; kan modvirke antihypertensiv effekt."] else [])

/-- Lab/clinical contraindication avoid entries of `build_recommendation`. -/
def brLabAvoid (i : BRIn) : List String :=
  (if has_hyperkalemia i.k_val then ["Hyperkaliæmi: undgå ACE/ARB/MRA indtil korrigeret."] else []) ++
  (if has_hyponatremia i.na_val then ["Hyponatriæmi: undgå tiazid-lignende diuretika."] else []) ++
  (if egfr_lowApp i.egfr_val then
     ["eGFR <30: tiazid-lignende ineffektiv; MRA med forsigtighed (overvej loop-diuretikum ved volumenoverload)."] else []) ++
  (if gout_risk i.urate_val i.gout_flag then
     ["Urinsyregigt/forhøjet urat: undgå tiazid-lignende diuretika."] else []) ++
  (if i.pregnancy_flag then ["Graviditet: undgå ACE/ARB/MRA."] else [])

/-- Fixed lifestyle-advice list of `build_recommendation`. -/
def brConservative : List String :=
  ["Saltreduktion (<5–6 g salt/dag) og kost med grønt/fisk.",
   "Vægttab ved BMI>25 (mål 5–10%).",
   "Alkoholreduktion (max 7/14 genstande pr. uge Kv/M).",
   "Motion ≥150 min/uge (moderat) + styrke 2×/uge.",
   "Rygestop og stressreduktion/søvnoptimering.",
   "Hjemme-BT-kontrol og revurdering om 3–6 mdr."]

/-- Base rationale entries (CKD/diabetes, heart failure, edema). -/
def brBaseRat (i : BRIn) : List String :=
  (if i.ckd_flag || i.proteinuria_flag || i.diabetes_flag then
     ["CKD/albuminuri/diabetes: RAAS-blokade anbefales som grundstamme."] else []) ++
  (if i.heart_failure_flag then
     ["Hjertesvigt: ACE/ARB + betablokker ± MRA (HFrEF) – følg HF-vejledning."] else []) ++
  (if i.edema_flag then ["DHP-CCB kan give ankelødem; kombiner evt. med ACE/ARB."] else [])

/-- `allowed_raas` closure of `build_recommendation`. -/
def brAllowedRaas (i : BRIn) : Bool :=
  !(has_hyperkalemia i.k_val || i.pregnancy_flag)

/-- `allowed_thiazide` closure of `build_recommendation`. -/
def brAllowedThiazide (i : BRIn) : Bool :=
  !(has_hyponatremia i.na_val || egfr_lowApp i.egfr_val || gout_risk i.urate_val i.gout_flag)

/-- `need_combo` condition of the pharmacologic branch. -/
def brNeedCombo (i : BRIn) : Bool :=
  decide (160 ≤ i.sbp_val) ||
    (decide (140 ≤ i.sbp_val) &&
      (i.diabetes_flag || i.ckd_flag || i.proteinuria_flag || decide (10 ≤ i.score2_pct)))

/-- First-line list built in the pharmacologic branch before the
pregnancy override (`allowed_ccb_dhp()` is identically true in the
source and is inlined). -/
def brPharmaFl0 (i : BRIn) : List FL :=
  (if brAllowedRaas i then mkFL DRUGS_ACE "Basis."
   else
     mkFL DRUGS_CCB_DHP "RAAS kontraindiceret." ++
       (if brAllowedThiazide i then mkFL DRUGS_THIAZIDE_LIKE "RAAS kontraindiceret." else [])) ++
  (if brNeedCombo i then
     mkFL DRUGS_CCB_DHP "Kombinationsbehandling." ++
       (if brAllowedThiazide i then mkFL DRUGS_THIAZIDE_LIKE "Kombinationsbehandling." else [])
   else [])

/-- First-line list of `build_recommendation`: in the conservative mode
only the "consider" RAAS entries appear; in the pharmacologic mode the
pregnancy override clears the list and substitutes the PREG drugs. -/
def brFirstline (i : BRIn) : List FL :=
  if brMode i = "Conservative" then
    (if (i.diabetes_flag || i.ckd_flag || i.proteinuria_flag) && brAllowedRaas i then
       mkFL DRUGS_ACE "Overvej ved CKD/albuminuri/diabetes." else [])
  else
    if i.pregnancy_flag then mkFL DRUGS_PREG "Graviditet – undgå RAAS/MRA."
    else brPharmaFl0 i

/-- Plan-B list of `build_recommendation` (only in the pharmacologic
branch: the resistant-hypertension MRA suggestion). -/
def brPlanb (i : BRIn) : List String :=
  if brMode i = "Conservative" then []
  else if 160 ≤ i.sbp_val ∧ brAllowedRaas i = true ∧ has_hyperkalemia i.k_val = false then
    ["Resistent HT: overvej Spironolakton (Spiron®) 25 mg x 1 (monitorér K+/kreatinin)."]
  else []

/-- Asthma/COPD note appended at the end of the avoid list. -/
def brAsthmaNote (i : BRIn) : List String :=
  if i.asthma_copd_flag then
    ["Astma/COPD: undgå ikke-selektive beta-blokkere; overvej selektive ved indikation."]
  else []

/-- Avoid list of `build_recommendation` (interactions, then labs, then
the asthma/COPD note appended at the end). -/
def brAvoid (i : BRIn) : List String :=
  brInterAvoid i ++ brLabAvoid i ++ brAsthmaNote i

/-- Conservative-mode summary rationale line. -/
def brConsNote (i : BRIn) : List String :=
  if brMode i = "Conservative" then
    ["Primært konservativ behandling valgt ud fra grad/risiko."]
  else []

/-- Rationale list of `build_recommendation`: the grade/mode line, the
interaction reasons, the base rationales, and the conservative-mode
summary line. -/
def brRationale (i : BRIn) : List String :=
  ("BT-grad: " ++ sbp_grade i.sbp_val ++ ". " ++
      (indication_for_treatment i.sbp_val i.score2_pct (brHighRisk i)).2) ::
    (brInterRat i ++ brBaseRat i ++ brConsNote i)

/-- Embedding of `build_recommendation` (app.py): returns the output
dict together with the mode and grade strings, as the source does. -/
def build_recommendation (i : BRIn) : RecOut × String × String :=
  ({ conservative := brConservative
     firstline := brFirstline i
     avoid := brAvoid i
     rationale := brRationale i
     planb := brPlanb i },
   brMode i, sbp_grade i.sbp_val)

/-! ### app.py — SCORE2 calculator

The calculator uses `math.exp`/`math.log`, so it is modelled over ℝ
(idealized real arithmetic; IEEE rounding and float overflow are outside
the embedding).  The `try/except` around the transform is modelled by
definedness guards on the arguments of the two `math.log` applications
that are not protected by the clamp. -/

/-- A row of the coefficient table (`score2_coefficients.csv` schema /
`COEFFS_FALLBACK`). -/
structure CoeffRow where
  sex : String
  term : String
  coef : ℝ

/-- A row of the baseline table (`score2_baseline.csv` schema /
`BASELINE_FALLBACK`). -/
structure BaseRow where
  sex : String
  region : String
  s0_10y : ℝ
  scale1 : ℝ
  scale2 : ℝ

/-- The built-in `COEFFS_FALLBACK` table of app.py (18 rows). -/
def COEFFS_FALLBACK : List CoeffRow :=
  [⟨"M", "cage", 0.3742⟩, ⟨"M", "csbp", 0.2777⟩, ⟨"M", "ctc", 0.1458⟩,
   ⟨"M", "chdl", -0.2698⟩, ⟨"M", "smoke", 0.6012⟩, ⟨"M", "cage*csbp", -0.0255⟩,
   ⟨"M", "cage*ctc", -0.0281⟩, ⟨"M", "cage*chdl", 0.0426⟩, ⟨"M", "cage*smoke", -0.0755⟩,
   ⟨"F", "cage", 0.4648⟩, ⟨"F", "csbp", 0.3131⟩, ⟨"F", "ctc", 0.1002⟩,
   ⟨"F", "chdl", -0.2606⟩, ⟨"F", "smoke", 0.7744⟩, ⟨"F", "cage*csbp", -0.0277⟩,
   ⟨"F", "cage*ctc", -0.0226⟩, ⟨"F", "cage*chdl", 0.0613⟩, ⟨"F", "cage*smoke", -0.1088⟩]

/-- The built-in `BASELINE_FALLBACK` table of app.py. -/
def BASELINE_FALLBACK : List BaseRow :=
  [⟨"M", "NorthernEurope", 0.9605, -0.5699, 0.7476⟩,
   ⟨"F", "NorthernEurope", 0.9776, -0.7380, 0.7019⟩]

/-- Embedding of `clamp` from app.py over ℝ. -/
def clampR (v lo hi : ℝ) : ℝ := max lo (min hi v)

/-- Model of Python `str.lower()` (character-by-character, which is what
it does on the ASCII table headers involved). -/
def pyLower (s : String) : String := ⟨s.data.map Char.toLower⟩

/-- Model of Python `str.upper()`. -/
def pyUpper (s : String) : String := ⟨s.data.map Char.toUpper⟩

/-- Model of Python `s[0]` on strings (first character, as a string). -/
def pyFirst (s : String) : String := ⟨s.data.take 1⟩

/-- Model of Python `s.startswith(pre)`. -/
def pyStartsWith (s pre : String) : Bool := pre.data.isPrefixOf s.data

/-- The pandas expression `...["sex"].str.upper().str[0]`: uppercase the
sex cell and take its first character. -/
def sexKey (s : String) : String := pyFirst (pyUpper s)

/-- The region synonym test of the baseline lookup:
`region.str.lower().isin([...])`. -/
def regionSyn (r : String) : Bool :=
  ["northerneurope", "low", "low-risk", "nordeuropa"].contains (pyLower r)

/-- One iteration of the coefficient loop in `calculate_score2`: the
contribution of a table row to the linear predictor, dispatching on the
lower-cased term name (unknown terms contribute nothing). -/
def termContrib (cage csbp ctc chdl csmoke : ℝ) (term : String) (coef : ℝ) : ℝ :=
  let t := pyLower term
  if t = "cage" then coef * cage
  else if t = "csbp" then coef * csbp
  else if t = "ctc" ∨ t = "ctchol" then coef * ctc
  else if t = "chdl" then coef * chdl
  else if t = "smoke" ∨ t = "current_smoker" then coef * csmoke
  else if t = "cage*csbp" ∨ t = "cage_csbp" then coef * cage * csbp
  else if t = "cage*ctc" ∨ t = "cage_ctchol" then coef * cage * ctc
  else if t = "cage*chdl" ∨ t = "cage_chdl" then coef * cage * chdl
  else if t = "cage*smoke" ∨ t = "cage_smoker" then coef * cage * csmoke
  else 0

/-- The uncalibrated risk of `calculate_score2` before the clamp:
`1 - exp(ln(s0) * exp(lp))`. -/
noncomputable def uncalRaw (s0 lp : ℝ) : ℝ :=
  1 - Real.exp (Real.log s0 * Real.exp lp)

/-- The uncalibrated risk of `calculate_score2` after the clamp:
`clamp(1 - exp(ln(s0) * exp(lp)), 1e-9, 0.999999)`. -/
noncomputable def uncalClamped (s0 lp : ℝ) : ℝ :=
  clampR (uncalRaw s0 lp) 1e-9 0.999999

/-- The recalibrated risk before the final clamp:
`1 - exp(-exp(scale1 + scale2 * ln(-ln(1 - uncal))))`. -/
noncomputable def calRaw (s0 sc1 sc2 lp : ℝ) : ℝ :=
  1 - Real.exp (-Real.exp (sc1 + sc2 * Real.log (-Real.log (1 - uncalClamped s0 lp))))

/-- The calibrated percentage computed from a linear predictor:
`100 * clamp(1 - exp(-exp(scale1 + scale2 * ln(-ln(1 - uncal)))), 0, 0.9999)`. -/
noncomputable def riskFromLp (s0 sc1 sc2 lp : ℝ) : ℝ :=
  100 * clampR (calRaw s0 sc1 sc2 lp) 0 0.9999

/-- The linear predictor of `calculate_score2`: the fold of the
coefficient loop over the sex-filtered rows, starting from `lp = 0.0`. -/
def lpFold (df : List CoeffRow) (cage csbp ctc chdl csmoke : ℝ) : ℝ :=
  df.foldl (fun acc r => acc + termContrib cage csbp ctc chdl csmoke r.term r.coef) 0

/-- The sex code of `calculate_score2`:
`"M" if sex_label.startswith("M") else "F"`. -/
def score2SexCode (sex_label : String) : String :=
  if pyStartsWith sex_label "M" then "M" else "F"

/-- The sex-filtered coefficient rows (`df`) of `calculate_score2`. -/
def score2CoeffRows (coeffs : List CoeffRow) (sex_label : String) : List CoeffRow :=
  coeffs.filter fun r => sexKey r.sex == score2SexCode sex_label

/-- The baseline-row selection of `calculate_score2`: prefer a
region-synonym match, else any row of the right sex. -/
def score2BaseRows (baselines : List BaseRow) (sex_label : String) : List BaseRow :=
  let base0 := baselines.filter fun r =>
    (sexKey r.sex == score2SexCode sex_label) && regionSyn r.region
  if base0.isEmpty then baselines.filter fun r => sexKey r.sex == score2SexCode sex_label
  else base0

open Classical in
/-- Embedding of `calculate_score2` (app.py), with the coefficient and
baseline tables passed explicitly (the app reads them from module-level
globals).  `none` models Python `None`: empty coefficient selection,
empty baseline selection, or a `math` domain error caught by the
`try/except` (a `log` applied to a non-positive argument). -/
noncomputable def calculate_score2 (coeffs : List CoeffRow) (baselines : List BaseRow)
    (age : ℤ) (sex_label : String) (sbp tc hdl : ℝ) (smoker_label : String) : Option ℝ :=
  let df := score2CoeffRows coeffs sex_label
  if df.isEmpty then none
  else
    let cage := ((age : ℝ) - 60) / 5
    let csbp := (sbp - 120) / 20
    let ctc := (tc - 6.0) / 1.0
    let chdl := (hdl - 1.3) / 0.5
    let csmoke : ℝ := if smoker_label = "Ja" then 1.0 else 0.0
    let lp := lpFold df cage csbp ctc chdl csmoke
    match score2BaseRows baselines sex_label with
    | [] => none
    | b :: _ =>
      if 0 < b.s0_10y then
        if 0 < 1 - uncalClamped b.s0_10y lp ∧ 0 < -Real.log (1 - uncalClamped b.s0_10y lp) then
          some (riskFromLp b.s0_10y b.scale1 b.scale2 lp)
        else none
      else none

/-- `calculate_score2` as the app invokes it: with the fallback tables
(no CSV files ship with the repository, so `load_csv_or_none` yields the
fallbacks). -/
noncomputable def auto_score2 (age : ℤ) (sex_label : String) (sbp tc hdl : ℝ)
    (smoker_label : String) : Option ℝ :=
  calculate_score2 COEFFS_FALLBACK BASELINE_FALLBACK age sex_label sbp tc hdl smoker_label

/-- The risk percentage of `auto_score2`, defaulting to 0 in the `none`
case (used to state monotonicity; with the fallback tables the result is
never `none`). -/
noncomputable def score2val (age : ℤ) (sex_label : String) (sbp tc hdl : ℝ)
    (smoker_label : String) : ℝ :=
  (auto_score2 age sex_label sbp tc hdl smoker_label).getD 0

/-! ## Theorems -/

/-! ### Properties of `unique` -/

lemma mem_uniqueAux {α : Type} [DecidableEq α] (l : List α) :
    ∀ (seen : List α) (y : α), y ∈ uniqueAux seen l ↔ y ∈ l ∧ y ∉ seen := by
  induction l with
  | nil => intro seen y; simp [uniqueAux]
  | cons x xs ih =>
    intro seen y
    by_cases hx : x ∈ seen
    · rw [uniqueAux, if_pos hx, ih]
      constructor
      · rintro ⟨h1, h2⟩; exact ⟨List.mem_cons_of_mem _ h1, h2⟩
      · rintro ⟨h1, h2⟩
        rcases List.mem_cons.mp h1 with rfl | h1
        · exact absurd hx h2
        · exact ⟨h1, h2⟩
    · rw [uniqueAux, if_neg hx]
      rw [List.mem_cons, ih]
      constructor
      · rintro (rfl | ⟨h1, h2⟩)
        · exact ⟨List.mem_cons_self _ _, hx⟩
        · refine ⟨List.mem_cons_of_mem _ h1, fun hy => h2 (List.mem_cons_of_mem _ hy)⟩
      · rintro ⟨h1, h2⟩
        by_cases hyx : y = x
        · exact Or.inl hyx
        · rcases List.mem_cons.mp h1 with h | h1
          · exact absurd h hyx
          · refine Or.inr ⟨h1, fun hy => ?_⟩
            rcases List.mem_cons.mp hy with h | hy
            · exact hyx h
            · exact h2 hy

lemma uniqueAux_nodup {α : Type} [DecidableEq α] (l : List α) :
    ∀ seen : List α, (uniqueAux seen l).Nodup := by
  induction l with
  | nil => intro seen; simp [uniqueAux]
  | cons x xs ih =>
    intro seen
    by_cases hx : x ∈ seen
    · rw [uniqueAux, if_pos hx]; exact ih seen
    · rw [uniqueAux, if_neg hx]
      refine List.nodup_cons.mpr ⟨fun hmem => ?_, ih _⟩
      exact ((mem_uniqueAux xs _ x).mp hmem).2 (List.mem_cons_self x seen)

lemma mem_unique {α : Type} [DecidableEq α] {l : List α} {y : α} :
    y ∈ unique l ↔ y ∈ l := by
  rw [unique, mem_uniqueAux]; simp

lemma unique_nodup {α : Type} [DecidableEq α] (l : List α) : (unique l).Nodup :=
  uniqueAux_nodup l []

lemma unique_ne_nil {α : Type} [DecidableEq α] {l : List α} (h : l ≠ []) :
    unique l ≠ [] := by
  cases l with
  | nil => exact absurd rfl h
  | cons x xs => simp [unique, uniqueAux]

lemma uniqueAux_eq_specDedup {α : Type} [DecidableEq α] (l : List α) :
    ∀ seen : List α, uniqueAux seen l = specDedup (l.filter (fun y => y ∉ seen)) := by
  induction l with
  | nil => intro seen; simp [uniqueAux, specDedup]
  | cons x xs ih =>
    intro seen
    by_cases hx : x ∈ seen
    · rw [uniqueAux, if_pos hx, List.filter_cons_of_neg (by simpa using hx), ih]
    · rw [uniqueAux, if_neg hx, List.filter_cons_of_pos (by simpa using hx), specDedup, ih]
      congr 1
      rw [List.filter_filter]
      congr 1
      apply List.filter_congr
      intro a _
      by_cases hax : a = x <;> by_cases has : a ∈ seen <;> simp [hax, has, hx]

lemma unique_eq_specDedup {α : Type} [DecidableEq α] (l : List α) :
    unique l = specDedup l := by
  rw [unique, uniqueAux_eq_specDedup]
  congr 1
  simp

/-! ### Generic helpers for conditional list blocks -/

lemma ite_nil_sublist {α : Type} {c : Prop} [Decidable c] (l : List α) :
    List.Sublist (if c then l else []) l := by
  split
  · exact List.Sublist.refl l
  · exact List.nil_sublist l

lemma mem_ite_nil {α : Type} {c : Prop} [Decidable c] {l : List α} {x : α} :
    x ∈ (if c then l else []) ↔ c ∧ x ∈ l := by
  split <;> simp [*]

lemma ite_sublist_of {α : Type} {c : Prop} [Decidable c] {l1 l2 L : List α}
    (h1 : List.Sublist l1 L) (h2 : List.Sublist l2 L) :
    List.Sublist (if c then l1 else l2) L := by
  split
  · exact h1
  · exact h2

/-! ### No-duplicate lemmas for `build_recommendation` -/

/-- All avoid texts `build_recommendation` can ever emit, in emission order. -/
def brAvoidFull : List String :=
  ["Interaktion (Lithium): undgå ACE-hæmmer, ARB, Tiazid(-lign.) diuretikum.",
   "Interaktion (NSAID (fast)): undgå ACE/ARB + diuretikum (kombination).",
   "Interaktion (Verapamil/diltiazem): undgå Beta-blokker.",
   "Interaktion (Kaliumtilskud/K+-spare): undgå MRA (spironolakton/eplerenon), ACE-hæmmer, ARB.",
   "Interaktion (Prednisolon (høj dosis)): forsigtighed med Diuretika.",
   "Hyperkaliæmi: undgå ACE/ARB/MRA indtil korrigeret.",
   "Hyponatriæmi: undgå tiazid-lignende diuretika.",
   "eGFR <30: tiazid-lignende ineffektiv; MRA med forsigtighed (overvej loop-diuretikum ved volumenoverload).",
   "Urinsyregigt/forhøjet urat: undgå tiazid-lignende diuretika.",
   "Graviditet: undgå ACE/ARB/MRA.",
   "Astma/COPD: undgå ikke-selektive beta-blokkere; overvej selektive ved indikation."]

lemma brAvoid_sublist (i : BRIn) : List.Sublist (brAvoid i) brAvoidFull := by
  unfold brAvoid brInterAvoid brLabAvoid brAsthmaNote
  show List.Sublist _
    (((["Interaktion (Lithium): undgå ACE-hæmmer, ARB, Tiazid(-lign.) diuretikum."] ++
       ["Interaktion (NSAID (fast)): undgå ACE/ARB + diuretikum (kombination)."] ++
       ["Interaktion (Verapamil/diltiazem): undgå Beta-blokker."] ++
       ["Interaktion (Kaliumtilskud/K+-spare): undgå MRA (spironolakton/eplerenon), ACE-hæmmer, ARB."] ++
       ["Interaktion (Prednisolon (høj dosis)): forsigtighed med Diuretika."]) ++
      (["Hyperkaliæmi: undgå ACE/ARB/MRA indtil korrigeret."] ++
       ["Hyponatriæmi: undgå tiazid-lignende diuretika."] ++
       ["eGFR <30: tiazid-lignende ineffektiv; MRA med forsigtighed (overvej loop-diuretikum ved volumenoverload)."] ++
       ["Urinsyregigt/forhøjet urat: undgå tiazid-lignende diuretika."] ++
       ["Graviditet: undgå ACE/ARB/MRA."])) ++
     ["Astma/COPD: undgå ikke-selektive beta-blokkere; overvej selektive ved indikation."])
  repeat' first
    | exact ite_nil_sublist _
    | apply List.Sublist.append

lemma brAvoid_nodup (i : BRIn) : (brAvoid i).Nodup :=
  List.Nodup.sublist (brAvoid_sublist i) (by decide)

/-- All rationale texts after the grade line. -/
def brRatFull : List String :=
  ["Interaktion (Lithium): Øget lithium-niveau og toksicitet.",
   "Interaktion (NSAID (fast)): Øget risiko for AKI ('triple whammy').",
   "Interaktion (Verapamil/diltiazem): Risiko for AV-blok/bradykardi i kombination.",
   "Interaktion (Kaliumtilskud/K+-spare): Hyperkaliæmi-risiko.",
   "Interaktion (Prednisolon (høj dosis)): Væskeretention; kan modvirke antihypertensiv effekt.",
   "CKD/albuminuri/diabetes: RAAS-blokade anbefales som grundstamme.",
   "Hjertesvigt: ACE/ARB + betablokker ± MRA (HFrEF) – følg HF-vejledning.",
   "DHP-CCB kan give ankelødem; kombiner evt. med ACE/ARB.",
   "Primært konservativ behandling valgt ud fra grad/risiko."]

lemma brRat_tail_sublist (i : BRIn) :
    List.Sublist (brInterRat i ++ brBaseRat i ++ brConsNote i) brRatFull := by
  unfold brInterRat brBaseRat brConsNote
  show List.Sublist _
    (((["Interaktion (Lithium): Øget lithium-niveau og toksicitet."] ++
       ["Interaktion (NSAID (fast)): Øget risiko for AKI ('triple whammy')."] ++
       ["Interaktion (Verapamil/diltiazem): Risiko for AV-blok/bradykardi i kombination."] ++
       ["Interaktion (Kaliumtilskud/K+-spare): Hyperkaliæmi-risiko."] ++
       ["Interaktion (Prednisolon (høj dosis)): Væskeretention; kan modvirke antihypertensiv effekt."]) ++
      (["CKD/albuminuri/diabetes: RAAS-blokade anbefales som grundstamme."] ++
       ["Hjertesvigt: ACE/ARB + betablokker ± MRA (HFrEF) – følg HF-vejledning."] ++
       ["DHP-CCB kan give ankelødem; kombiner evt. med ACE/ARB."])) ++
     ["Primært konservativ behandling valgt ud fra grad/risiko."])
  repeat' first
    | exact ite_nil_sublist _
    | apply List.Sublist.append

lemma btText_data (g w : String) :
    ("BT-grad: " ++ g ++ ". " ++ w).data.head? = some 'B' := by
  rw [String.data_append, String.data_append, String.data_append]
  rfl

lemma btText_notin_ratFull (g w : String) : ("BT-grad: " ++ g ++ ". " ++ w) ∉ brRatFull := by
  intro hmem
  have hB := btText_data g w
  simp only [brRatFull, List.mem_cons, List.not_mem_nil, or_false] at hmem
  rcases hmem with h | h | h | h | h | h | h | h | h <;> rw [h] at hB <;> exact absurd hB (by decide)

lemma brRationale_nodup (i : BRIn) : (brRationale i).Nodup := by
  unfold brRationale
  refine List.nodup_cons.mpr ⟨fun hmem => ?_, ?_⟩
  · exact btText_notin_ratFull _ _ ((brRat_tail_sublist i).subset hmem)
  · exact List.Nodup.sublist (brRat_tail_sublist i) (by decide)

/-- All pharmacologic-branch first-line entries (non-pregnancy). -/
def brFlFull : List FL :=
  (mkFL DRUGS_ACE "Basis." ++
    (mkFL DRUGS_CCB_DHP "RAAS kontraindiceret." ++ mkFL DRUGS_THIAZIDE_LIKE "RAAS kontraindiceret.")) ++
   (mkFL DRUGS_CCB_DHP "Kombinationsbehandling." ++ mkFL DRUGS_THIAZIDE_LIKE "Kombinationsbehandling.")

lemma brPharmaFl0_sublist (i : BRIn) : List.Sublist (brPharmaFl0 i) brFlFull := by
  rw [brPharmaFl0, brFlFull]
  refine List.Sublist.append (ite_sublist_of ?_ ?_) (ite_sublist_of ?_ ?_)
  · exact List.sublist_append_left _ _
  · refine List.Sublist.trans ?_ (List.sublist_append_right _ _)
    exact List.Sublist.append (List.Sublist.refl _) (ite_nil_sublist _)
  · exact List.Sublist.append (List.Sublist.refl _) (ite_nil_sublist _)
  · exact List.nil_sublist _

lemma brFirstline_nodup (i : BRIn) : (brFirstline i).Nodup := by
  unfold brFirstline
  split
  · split
    · decide
    · simp
  · split
    · decide
    · exact List.Nodup.sublist (brPharmaFl0_sublist i) (by decide)

lemma brPlanb_nodup (i : BRIn) : (brPlanb i).Nodup := by
  unfold brPlanb
  split
  · simp
  · split
    · simp
    · simp

/-! ### Grading lemmas for app.py -/

lemma sbp_grade_g3 {s : ℚ} (h : 180 ≤ s) : sbp_grade s = "Grad 3" := by
  rw [sbp_grade, if_pos h]

lemma sbp_grade_g2 {s : ℚ} (h1 : s < 180) (h2 : 160 ≤ s) : sbp_grade s = "Grad 2" := by
  rw [sbp_grade, if_neg (by linarith), if_pos h2]

lemma sbp_grade_g1 {s : ℚ} (h1 : s < 160) (h2 : 140 ≤ s) : sbp_grade s = "Grad 1" := by
  rw [sbp_grade, if_neg (by linarith), if_neg (by linarith), if_pos h2]

lemma sbp_grade_hn {s : ℚ} (h1 : s < 140) (h2 : 130 ≤ s) : sbp_grade s = "Højt-normal" := by
  rw [sbp_grade, if_neg (by linarith), if_neg (by linarith), if_neg (by linarith), if_pos h2]

lemma sbp_grade_normal {s : ℚ} (h1 : s < 130) : sbp_grade s = "Normal" := by
  rw [sbp_grade, if_neg (by linarith), if_neg (by linarith), if_neg (by linarith),
    if_neg (by linarith)]

/-! ### Claim theorems for the rule engines -/

/-- C2: in both engines every returned output list is free of duplicates;
`unique` (the explicit dedup of `med_recommendations`) keeps exactly the
first occurrence of each entry, in first-occurrence order (it coincides
with the spec's first-occurrence deduplication), and every list returned
by `med_recommendations` is `unique`-deduplicated, while the lists built
by `build_recommendation` never contain a duplicate entry for any input. -/
theorem dedup_invariant :
    (∀ l : List String, unique l = specDedup l ∧ (unique l).Nodup) ∧
    (∀ p : Patient, (med_recommendations p).first_line_options.Nodup ∧
      (med_recommendations p).combinations.Nodup ∧
      (med_recommendations p).avoid_or_caution.Nodup ∧
      (med_recommendations p).rationales.Nodup) ∧
    (∀ i : BRIn, (build_recommendation i).1.firstline.Nodup ∧
      (build_recommendation i).1.avoid.Nodup ∧
      (build_recommendation i).1.rationale.Nodup ∧
      (build_recommendation i).1.planb.Nodup ∧
      (build_recommendation i).1.conservative.Nodup) := by
  refine ⟨fun l => ⟨unique_eq_specDedup l, unique_nodup l⟩,
    fun p => ⟨unique_nodup _, unique_nodup _, unique_nodup _, unique_nodup _⟩,
    fun i => ⟨brFirstline_nodup i, brAvoid_nodup i, brRationale_nodup i, brPlanb_nodup i,
      (by decide : brConservative.Nodup)⟩⟩

/-- C3 counterexample: a pregnant patient who also has diabetes makes
`med_recommendations` return a first-line list that is not the pregnancy
triple (the diabetes entry is kept; nothing is cleared), refuting the
claim that pregnancy yields exactly [labetalol, nifedipine-retard,
methyldopa] regardless of other comorbidity flags. -/
theorem pregnancy_first_line_cex :
    ({ age := 50, sex := "F", pregnancy := true, diabetes := true } : Patient).pregnancy = true ∧
    (med_recommendations { age := 50, sex := "F", pregnancy := true, diabetes := true }).first_line_options ≠
      ["Labetalol", "Nifedipin (retard)", "Methyldopa"] := by
  exact ⟨rfl, by decide⟩

/-- C3 amended: for every pregnant record, both engines put ACE inhibitor,
ARB and MRA on the avoid side; in `med_recommendations` the first-line list
is exactly [Labetalol, Nifedipin (retard), Methyldopa] only when no other
first-line rule (renal, diabetes, CAD/stroke, heart failure, AF) fires; in
`build_recommendation` the first-line list is replaced by exactly the three
pregnancy-safe drugs when the treatment mode is pharmacologic, and is empty
in the conservative mode (pregnancy blocks the RAAS "consider" entries). -/
theorem pregnancy_rules (p : Patient) (i : BRIn) (hp : p.pregnancy = true)
    (hi : i.pregnancy_flag = true) :
    ("ACE-hæmmer" ∈ (med_recommendations p).avoid_or_caution ∧
     "ARB" ∈ (med_recommendations p).avoid_or_caution ∧
     "MRA (spironolakton/eplerenon)" ∈ (med_recommendations p).avoid_or_caution) ∧
    (gpRenalFl p = [] → gpDmFl p = [] → gpCadFl p = [] → gpHfFl p = [] → gpAfFl p = [] →
      (med_recommendations p).first_line_options =
        ["Labetalol", "Nifedipin (retard)", "Methyldopa"]) ∧
    ("Graviditet: undgå ACE/ARB/MRA." ∈ (build_recommendation i).1.avoid) ∧
    (brMode i ≠ "Conservative" →
      (build_recommendation i).1.firstline = mkFL DRUGS_PREG "Graviditet – undgå RAAS/MRA.") ∧
    (brMode i = "Conservative" → (build_recommendation i).1.firstline = []) := by
  refine ⟨⟨?_, ?_, ?_⟩, ?_, ?_, ?_, ?_⟩
  · show _ ∈ unique (gpAvoid p)
    rw [mem_unique]
    simp [gpAvoid, gpPregAvoid, hp]
  · show _ ∈ unique (gpAvoid p)
    rw [mem_unique]
    simp [gpAvoid, gpPregAvoid, hp]
  · show _ ∈ unique (gpAvoid p)
    rw [mem_unique]
    simp [gpAvoid, gpPregAvoid, hp]
  · intro h1 h2 h3 h4 h5
    show unique (gpFirstLine p) = _
    have h0 : gpFirstLine0 p = ["Labetalol", "Nifedipin (retard)", "Methyldopa"] := by
      unfold gpFirstLine0
      rw [h1, h2, h3, h4, h5]
      simp [gpPregFl, hp]
    unfold gpFirstLine
    rw [h0]
    decide
  · show _ ∈ brAvoid i
    simp [brAvoid, brLabAvoid, hi]
  · intro hm
    show brFirstline i = _
    rw [brFirstline, if_neg hm, if_pos hi]
  · intro hm
    show brFirstline i = _
    rw [brFirstline, if_pos hm]
    simp [brAllowedRaas, hi]

/-- C3 amended witness at a concrete pregnant patient with no other
comorbidity (gp engine) and a pregnant grade-2 input (app engine). -/
theorem pregnancy_rules_witness :
    (med_recommendations { age := 30, sex := "F", pregnancy := true }).first_line_options =
      ["Labetalol", "Nifedipin (retard)", "Methyldopa"] ∧
    "Graviditet: undgå ACE/ARB/MRA." ∈
      (build_recommendation { sbp_val := 170, pregnancy_flag := true }).1.avoid ∧
    (build_recommendation { sbp_val := 170, pregnancy_flag := true }).1.firstline =
      mkFL DRUGS_PREG "Graviditet – undgå RAAS/MRA." := by
  have h := pregnancy_rules { age := 30, sex := "F", pregnancy := true }
    { sbp_val := 170, pregnancy_flag := true } rfl rfl
  exact ⟨h.2.1 rfl rfl rfl rfl rfl, h.2.2.1, h.2.2.2.1 (by decide)⟩

/-- C4: the treatment-mode table of `indication_for_treatment`: systolic
BP ≥ 160 always yields Pharmacologic; 140 ≤ BP < 160 yields Pharmacologic
iff a major comorbidity flag is set or risk ≥ 7.5; 130 ≤ BP < 140 yields
Pharmacologic iff a flag is set or risk ≥ 10; BP < 130 always yields
Conservative. -/
theorem treatment_mode_table (sbp score2 : ℚ) (flags : Bool) :
    (160 ≤ sbp → (indication_for_treatment sbp score2 flags).1 = "Pharmacologic") ∧
    (140 ≤ sbp → sbp < 160 →
      ((indication_for_treatment sbp score2 flags).1 = "Pharmacologic" ↔
        flags = true ∨ 7.5 ≤ score2)) ∧
    (130 ≤ sbp → sbp < 140 →
      ((indication_for_treatment sbp score2 flags).1 = "Pharmacologic" ↔
        flags = true ∨ 10 ≤ score2)) ∧
    (sbp < 130 → (indication_for_treatment sbp score2 flags).1 = "Conservative") := by
  refine ⟨?_, ?_, ?_, ?_⟩
  · intro h
    rcases le_or_lt 180 sbp with h3 | h3
    · simp [indication_for_treatment, sbp_grade_g3 h3]
    · simp [indication_for_treatment, sbp_grade_g2 h3 h]
  · intro h1 h2
    simp only [indication_for_treatment, sbp_grade_g1 h2 h1]
    by_cases hc : flags = true ∨ 7.5 ≤ score2
    · simp only [if_pos hc]
      exact iff_of_true (by simp) hc
    · simp only [if_neg hc]
      exact iff_of_false (by simp) hc
  · intro h1 h2
    simp only [indication_for_treatment, sbp_grade_hn h2 h1]
    by_cases hc : flags = true ∨ 10 ≤ score2
    · simp only [if_pos hc]
      exact iff_of_true (by simp) hc
    · simp only [if_neg hc]
      exact iff_of_false (by simp) hc
  · intro h
    simp [indication_for_treatment, sbp_grade_normal h]

/-- C4 witness: BP 185 (with high risk and comorbidities irrelevant) is
Pharmacologic; BP 120 is Conservative. -/
theorem treatment_mode_table_witness :
    (indication_for_treatment 185 50 true).1 = "Pharmacologic" ∧
    (indication_for_treatment 120 0 false).1 = "Conservative" :=
  ⟨(treatment_mode_table 185 50 true).1 (by norm_num),
   (treatment_mode_table 120 0 false).2.2.2 (by norm_num)⟩

/-- C7: with a supplied risk percentage, `score2_intervention_flag`
returns no recommendation exactly when age is outside 40–75, and inside
the range it compares against the thresholds 5.0 (40–59), 7.5 (60–69)
and 10.0 (70–75), returning a definite Yes/No. -/
theorem score2_flag_table (p : Patient) (v : ℚ) (h : p.score2_pct = some v) :
    ((score2_intervention_flag p).intervention_recommended = none ↔
      ¬(40 ≤ p.age ∧ p.age ≤ 75)) ∧
    (40 ≤ p.age → p.age ≤ 59 →
      intervention_threshold p.age = some 5.0 ∧
      (score2_intervention_flag p).intervention_recommended =
        some (if 5.0 ≤ v then "Yes" else "No")) ∧
    (60 ≤ p.age → p.age ≤ 69 →
      intervention_threshold p.age = some 7.5 ∧
      (score2_intervention_flag p).intervention_recommended =
        some (if 7.5 ≤ v then "Yes" else "No")) ∧
    (70 ≤ p.age → p.age ≤ 75 →
      intervention_threshold p.age = some 10.0 ∧
      (score2_intervention_flag p).intervention_recommended =
        some (if 10.0 ≤ v then "Yes" else "No")) := by
  refine ⟨?_, ?_, ?_, ?_⟩
  · by_cases hr : 40 ≤ p.age ∧ p.age ≤ 75
    · rw [score2_intervention_flag, if_neg (by simp [h, hr])]
      simp [hr]
    · rw [score2_intervention_flag, if_pos (Or.inr hr)]
      simp [hr]
  · intro h1 h2
    have hth : intervention_threshold p.age = some 5.0 := by
      rw [intervention_threshold, if_pos ⟨h1, h2⟩]
    refine ⟨hth, ?_⟩
    rw [score2_intervention_flag, if_neg (by simp [h]; omega)]
    simp [hth, h]
  · intro h1 h2
    have hth : intervention_threshold p.age = some 7.5 := by
      rw [intervention_threshold, if_neg (by omega), if_pos ⟨h1, h2⟩]
    refine ⟨hth, ?_⟩
    rw [score2_intervention_flag, if_neg (by simp [h]; omega)]
    simp [hth, h]
  · intro h1 h2
    have hth : intervention_threshold p.age = some 10.0 := by
      rw [intervention_threshold, if_neg (by omega), if_neg (by omega), if_pos ⟨h1, h2⟩]
    refine ⟨hth, ?_⟩
    rw [score2_intervention_flag, if_neg (by simp [h]; omega)]
    simp [hth, h]

/-- C7 witness: age 58 with supplied risk 7% crosses the 5.0% threshold. -/
theorem score2_flag_table_witness :
    intervention_threshold (58 : ℤ) = some 5.0 ∧
    (score2_intervention_flag
      { age := 58, sex := "M", score2_pct := some 7 }).intervention_recommended = some "Yes" := by
  have h := (score2_flag_table { age := 58, sex := "M", score2_pct := some 7 } 7 rfl).2.1
    (by norm_num) (by norm_num)
  refine ⟨h.1, ?_⟩
  rw [h.2]
  norm_num

/-- C8 counterexample: at sodium exactly 133 the gp engine does emit the
thiazide avoidance (its comparison is `<= 133`, not `< 133`), refuting
the claim that no hyponatremia avoidance is emitted at 133 in both
engines. -/
theorem hyponatremia_boundary_cex :
    ({ age := 60, sex := "M", na := some 133 } : Patient).na = some 133 ∧
    "Tiazid(-lign.) diuretikum" ∈
      (med_recommendations { age := 60, sex := "M", na := some 133 }).avoid_or_caution := by
  exact ⟨rfl, by decide⟩

/-- C8 amended: the two engines use different sodium cutoffs: app.py's
`has_hyponatremia` fires iff sodium is strictly below 133 (and its avoid
text appears iff so), while `med_recommendations` emits its hyponatremia
items iff sodium is ≤ 133. -/
theorem hyponatremia_rules (v : ℚ) (p : Patient) (i : BRIn) (hna : p.na = some v) :
    (has_hyponatremia v = true ↔ v < 133) ∧
    ("Hyponatriæmi: undgå tiazid-lignende diuretika." ∈ (build_recommendation i).1.avoid ↔
      i.na_val < 133) ∧
    ("Hyponatriæmi kan forværres af tiazider; undgå tilstanden er korrigeret." ∈
      (med_recommendations p).rationales ↔ v ≤ 133) ∧
    (v ≤ 133 → "Tiazid(-lign.) diuretikum" ∈ (med_recommendations p).avoid_or_caution) := by
  refine ⟨by simp [has_hyponatremia], ?_, ?_, ?_⟩
  · show _ ∈ brAvoid i ↔ _
    simp [brAvoid, brInterAvoid, brLabAvoid, brAsthmaNote, mem_ite_nil, has_hyponatremia]
  · show _ ∈ unique (gpRationales p) ↔ _
    rw [mem_unique]
    unfold gpRationales
    rcases hk : p.k with _ | kv <;> rcases he : p.egfr with _ | ev <;>
      simp [gpKRat, gpNaRat, gpEgfr30Rat, gpRenalRat, gpDmRat, gpCadRat, gpHfRat, gpAfRat,
        gpGoutRat, gpAsthmaRat, gpEdemaRat, gpPregRat, hk, he, hna, mem_ite_nil] <;>
      split_ifs <;> simp
  · intro hv
    show _ ∈ unique (gpAvoid p)
    rw [mem_unique]
    simp [gpAvoid, gpNaAvoid, hna, hv]

/-- C8 amended witness at sodium 132 (both engines fire). -/
theorem hyponatremia_rules_witness :
    has_hyponatremia 132 = true ∧
    "Hyponatriæmi: undgå tiazid-lignende diuretika." ∈
      (build_recommendation { sbp_val := 150, na_val := 132 }).1.avoid ∧
    "Hyponatriæmi kan forværres af tiazider; undgå tilstanden er korrigeret." ∈
      (med_recommendations { age := 60, sex := "M", na := some 132 }).rationales := by
  have h := hyponatremia_rules 132 { age := 60, sex := "M", na := some 132 }
    { sbp_val := 150, na_val := 132 } rfl
  exact ⟨h.1.mpr (by norm_num), h.2.1.mpr (by norm_num), h.2.2.1.mpr (by norm_num)⟩

/-- C9: `age_adjusted_refs` agrees everywhere with the specification's
description: baseline sodium [137,145], potassium [3.5,5.0], eGFR upper
bound 120; independent step adjustments at ages ≥ 70 and ≥ 80 narrowing
the sodium band by 0.5 on both ends and raising the potassium upper
bound by 0.1; eGFR upper bound decaying by 1 per year past 40, floored
at 60. -/
theorem age_adjusted_refs_spec (age : ℤ) : age_adjusted_refs age = specAgeRefs age := by
  unfold age_adjusted_refs specAgeRefs
  by_cases h70 : 70 ≤ age <;> by_cases h80 : 80 ≤ age <;> by_cases h40 : age ≤ 40 <;>
    simp [h70, h80, h40] <;> norm_num

/-- C10: `med_recommendations` never returns an empty first-line list:
if no rule added a first-line class the default triple is inserted. -/
theorem med_first_line_always_nonempty :
    (∀ p : Patient, (med_recommendations p).first_line_options ≠ []) ∧
    (∀ p : Patient, gpFirstLine0 p = [] →
      (med_recommendations p).first_line_options = gpDefaultFl) := by
  constructor
  · intro p
    show unique (gpFirstLine p) ≠ []
    apply unique_ne_nil
    unfold gpFirstLine
    split
    · rename_i h
      rw [List.isEmpty_iff] at h
      rw [h]
      simp [gpDefaultFl]
    · rename_i h
      rw [List.isEmpty_iff] at h
      exact h
  · intro p h
    show unique (gpFirstLine p) = gpDefaultFl
    unfold gpFirstLine
    rw [h]
    simp [List.isEmpty_nil]
    decide

/-- C10 witness: a patient triggering no first-line rule gets exactly the
default triple (hence a non-empty list). -/
theorem med_first_line_always_nonempty_witness :
    (med_recommendations { age := 50, sex := "M" }).first_line_options ≠ [] ∧
    (med_recommendations { age := 50, sex := "M" }).first_line_options = gpDefaultFl :=
  ⟨med_first_line_always_nonempty.1 _, med_first_line_always_nonempty.2 _ rfl⟩

/-! ### SCORE2 pipeline: clamp and monotonicity lemmas -/


/-! clamp lemmas -/

lemma le_clampR {lo hi : ℝ} (v : ℝ) : lo ≤ clampR v lo hi := le_max_left _ _

lemma clampR_le {lo hi : ℝ} (v : ℝ) (h : lo ≤ hi) : clampR v lo hi ≤ hi :=
  max_le h (min_le_left _ _)

lemma clampR_mono {lo hi v1 v2 : ℝ} (h : v1 ≤ v2) : clampR v1 lo hi ≤ clampR v2 lo hi :=
  max_le_max le_rfl (min_le_min le_rfl h)

lemma clampR_eq_self {lo hi v : ℝ} (h1 : lo ≤ v) (h2 : v ≤ hi) : clampR v lo hi = v := by
  rw [clampR, min_eq_right h2, max_eq_right h1]

/-! bounds on the clamped uncalibrated risk -/

lemma uncalClamped_mem (s0 lp : ℝ) :
    1e-9 ≤ uncalClamped s0 lp ∧ uncalClamped s0 lp ≤ 0.999999 :=
  ⟨le_clampR _, clampR_le _ (by norm_num)⟩

lemma oneSub_uncal_pos (s0 lp : ℝ) : 0 < 1 - uncalClamped s0 lp := by
  have h := (uncalClamped_mem s0 lp).2
  linarith

lemma negLog_uncal_pos (s0 lp : ℝ) : 0 < -Real.log (1 - uncalClamped s0 lp) := by
  have h1 := (uncalClamped_mem s0 lp).1
  have h2 := (uncalClamped_mem s0 lp).2
  have : Real.log (1 - uncalClamped s0 lp) < 0 :=
    Real.log_neg (by linarith) (by linarith)
  linarith

/-! monotonicity of the pipeline in the linear predictor -/

lemma uncalRaw_mono {s0 lp1 lp2 : ℝ} (hs0 : 0 < s0) (hs1 : s0 < 1) (h : lp1 ≤ lp2) :
    uncalRaw s0 lp1 ≤ uncalRaw s0 lp2 := by
  unfold uncalRaw
  have hlog : Real.log s0 < 0 := Real.log_neg hs0 hs1
  have hexp : Real.exp lp1 ≤ Real.exp lp2 := Real.exp_le_exp.mpr h
  have hmul : Real.log s0 * Real.exp lp2 ≤ Real.log s0 * Real.exp lp1 :=
    mul_le_mul_of_nonpos_left hexp hlog.le
  have := Real.exp_le_exp.mpr hmul
  linarith

lemma uncalRaw_strict {s0 lp1 lp2 : ℝ} (hs0 : 0 < s0) (hs1 : s0 < 1) (h : lp1 < lp2) :
    uncalRaw s0 lp1 < uncalRaw s0 lp2 := by
  unfold uncalRaw
  have hlog : Real.log s0 < 0 := Real.log_neg hs0 hs1
  have hexp : Real.exp lp1 < Real.exp lp2 := Real.exp_lt_exp.mpr h
  have hmul : Real.log s0 * Real.exp lp2 < Real.log s0 * Real.exp lp1 :=
    mul_lt_mul_of_neg_left hexp hlog
  have := Real.exp_lt_exp.mpr hmul
  linarith

lemma calRaw_mono {s0 sc1 sc2 lp1 lp2 : ℝ} (hs0 : 0 < s0) (hs1 : s0 < 1) (hsc2 : 0 ≤ sc2)
    (h : lp1 ≤ lp2) : calRaw s0 sc1 sc2 lp1 ≤ calRaw s0 sc1 sc2 lp2 := by
  unfold calRaw
  have hu : uncalClamped s0 lp1 ≤ uncalClamped s0 lp2 :=
    clampR_mono (uncalRaw_mono hs0 hs1 h)
  have h1 : 0 < 1 - uncalClamped s0 lp2 := oneSub_uncal_pos s0 lp2
  have hlog : Real.log (1 - uncalClamped s0 lp2) ≤ Real.log (1 - uncalClamped s0 lp1) :=
    Real.log_le_log h1 (by linarith)
  have hz : Real.log (-Real.log (1 - uncalClamped s0 lp1)) ≤
      Real.log (-Real.log (1 - uncalClamped s0 lp2)) :=
    Real.log_le_log (negLog_uncal_pos s0 lp1) (by linarith)
  have hw : sc1 + sc2 * Real.log (-Real.log (1 - uncalClamped s0 lp1)) ≤
      sc1 + sc2 * Real.log (-Real.log (1 - uncalClamped s0 lp2)) := by
    have := mul_le_mul_of_nonneg_left hz hsc2
    linarith
  have := Real.exp_le_exp.mpr (neg_le_neg (Real.exp_le_exp.mpr hw))
  linarith

lemma riskFromLp_mono {s0 sc1 sc2 lp1 lp2 : ℝ} (hs0 : 0 < s0) (hs1 : s0 < 1) (hsc2 : 0 ≤ sc2)
    (h : lp1 ≤ lp2) : riskFromLp s0 sc1 sc2 lp1 ≤ riskFromLp s0 sc1 sc2 lp2 := by
  unfold riskFromLp
  have := @clampR_mono 0 0.9999 _ _ (@calRaw_mono s0 sc1 sc2 lp1 lp2 hs0 hs1 hsc2 h)
  linarith

lemma calRaw_pos (s0 sc1 sc2 lp : ℝ) : 0 < calRaw s0 sc1 sc2 lp := by
  unfold calRaw
  have : Real.exp (-Real.exp (sc1 + sc2 * Real.log (-Real.log (1 - uncalClamped s0 lp)))) < 1 :=
    Real.exp_lt_one_iff.mpr (neg_neg_of_pos (Real.exp_pos _))
  linarith

lemma calRaw_strict {s0 sc1 sc2 lp1 lp2 : ℝ} (hs0 : 0 < s0) (hs1 : s0 < 1) (hsc2 : 0 < sc2)
    (h : lp1 < lp2) (hlo : 1e-9 < uncalRaw s0 lp1) (hhi : uncalRaw s0 lp2 < 0.999999) :
    calRaw s0 sc1 sc2 lp1 < calRaw s0 sc1 sc2 lp2 := by
  have hraw : uncalRaw s0 lp1 < uncalRaw s0 lp2 := uncalRaw_strict hs0 hs1 h
  have hc1 : uncalClamped s0 lp1 = uncalRaw s0 lp1 :=
    clampR_eq_self hlo.le (by linarith)
  have hc2 : uncalClamped s0 lp2 = uncalRaw s0 lp2 :=
    clampR_eq_self (by linarith) hhi.le
  unfold calRaw
  rw [hc1, hc2]
  have h1 : 0 < 1 - uncalRaw s0 lp2 := by linarith
  have hlog : Real.log (1 - uncalRaw s0 lp2) < Real.log (1 - uncalRaw s0 lp1) :=
    Real.log_lt_log h1 (by linarith)
  have hL1 : 0 < -Real.log (1 - uncalRaw s0 lp1) := by
    have : Real.log (1 - uncalRaw s0 lp1) < 0 := Real.log_neg (by linarith) (by linarith)
    linarith
  have hz : Real.log (-Real.log (1 - uncalRaw s0 lp1)) <
      Real.log (-Real.log (1 - uncalRaw s0 lp2)) :=
    Real.log_lt_log hL1 (by linarith)
  have hw : sc1 + sc2 * Real.log (-Real.log (1 - uncalRaw s0 lp1)) <
      sc1 + sc2 * Real.log (-Real.log (1 - uncalRaw s0 lp2)) := by
    have := mul_lt_mul_of_pos_left hz hsc2
    linarith
  have := Real.exp_lt_exp.mpr (neg_lt_neg (Real.exp_lt_exp.mpr hw))
  linarith

lemma riskFromLp_strict {s0 sc1 sc2 lp1 lp2 : ℝ} (hs0 : 0 < s0) (hs1 : s0 < 1) (hsc2 : 0 < sc2)
    (h : lp1 < lp2) (hlo : 1e-9 < uncalRaw s0 lp1) (hhi : uncalRaw s0 lp2 < 0.999999)
    (hcal : calRaw s0 sc1 sc2 lp2 < 0.9999) :
    riskFromLp s0 sc1 sc2 lp1 < riskFromLp s0 sc1 sc2 lp2 := by
  have hstrict := @calRaw_strict s0 sc1 sc2 lp1 lp2 hs0 hs1 hsc2 h hlo hhi
  unfold riskFromLp
  rw [clampR_eq_self (calRaw_pos _ _ _ _).le (by linarith),
    clampR_eq_self (calRaw_pos _ _ _ _).le hcal.le]
  linarith


/-! ### SCORE2 fallback-table evaluation lemmas -/


/-- The nine male fallback coefficient rows. -/
def coeffsM : List CoeffRow :=
  [⟨"M", "cage", 0.3742⟩, ⟨"M", "csbp", 0.2777⟩, ⟨"M", "ctc", 0.1458⟩,
   ⟨"M", "chdl", -0.2698⟩, ⟨"M", "smoke", 0.6012⟩, ⟨"M", "cage*csbp", -0.0255⟩,
   ⟨"M", "cage*ctc", -0.0281⟩, ⟨"M", "cage*chdl", 0.0426⟩, ⟨"M", "cage*smoke", -0.0755⟩]

/-- The nine female fallback coefficient rows. -/
def coeffsF : List CoeffRow :=
  [⟨"F", "cage", 0.4648⟩, ⟨"F", "csbp", 0.3131⟩, ⟨"F", "ctc", 0.1002⟩,
   ⟨"F", "chdl", -0.2606⟩, ⟨"F", "smoke", 0.7744⟩, ⟨"F", "cage*csbp", -0.0277⟩,
   ⟨"F", "cage*ctc", -0.0226⟩, ⟨"F", "cage*chdl", 0.0613⟩, ⟨"F", "cage*smoke", -0.1088⟩]

lemma coeffRows_M (sex : String) (h : pyStartsWith sex "M" = true) :
    score2CoeffRows COEFFS_FALLBACK sex = coeffsM := by
  unfold score2CoeffRows score2SexCode
  rw [h, if_pos rfl]
  rfl

lemma coeffRows_F (sex : String) (h : pyStartsWith sex "M" = false) :
    score2CoeffRows COEFFS_FALLBACK sex = coeffsF := by
  unfold score2CoeffRows score2SexCode
  rw [h]
  rfl

lemma baseRows_M (sex : String) (h : pyStartsWith sex "M" = true) :
    score2BaseRows BASELINE_FALLBACK sex = [⟨"M", "NorthernEurope", 0.9605, -0.5699, 0.7476⟩] := by
  unfold score2BaseRows score2SexCode
  rw [h]
  rfl

lemma baseRows_F (sex : String) (h : pyStartsWith sex "M" = false) :
    score2BaseRows BASELINE_FALLBACK sex = [⟨"F", "NorthernEurope", 0.9776, -0.7380, 0.7019⟩] := by
  unfold score2BaseRows score2SexCode
  rw [h]
  rfl

/-- The male linear predictor of the fallback table in closed form. -/
noncomputable def lpM (cage csbp ctc chdl csmoke : ℝ) : ℝ :=
  0.3742 * cage + 0.2777 * csbp + 0.1458 * ctc + (-0.2698) * chdl + 0.6012 * csmoke +
    (-0.0255) * cage * csbp + (-0.0281) * cage * ctc + 0.0426 * cage * chdl +
    (-0.0755) * cage * csmoke

/-- The female linear predictor of the fallback table in closed form. -/
noncomputable def lpF (cage csbp ctc chdl csmoke : ℝ) : ℝ :=
  0.4648 * cage + 0.3131 * csbp + 0.1002 * ctc + (-0.2606) * chdl + 0.7744 * csmoke +
    (-0.0277) * cage * csbp + (-0.0226) * cage * ctc + 0.0613 * cage * chdl +
    (-0.1088) * cage * csmoke

lemma lpFold_Mrows (cage csbp ctc chdl csmoke : ℝ) :
    lpFold coeffsM cage csbp ctc chdl csmoke = lpM cage csbp ctc chdl csmoke := by
  show (0 + 0.3742 * cage + 0.2777 * csbp + 0.1458 * ctc + (-0.2698) * chdl + 0.6012 * csmoke +
    (-0.0255) * cage * csbp + (-0.0281) * cage * ctc + 0.0426 * cage * chdl +
    (-0.0755) * cage * csmoke : ℝ) = _
  rw [lpM]
  ring

lemma lpFold_Frows (cage csbp ctc chdl csmoke : ℝ) :
    lpFold coeffsF cage csbp ctc chdl csmoke = lpF cage csbp ctc chdl csmoke := by
  show (0 + 0.4648 * cage + 0.3131 * csbp + 0.1002 * ctc + (-0.2606) * chdl + 0.7744 * csmoke +
    (-0.0277) * cage * csbp + (-0.0226) * cage * ctc + 0.0613 * cage * chdl +
    (-0.1088) * cage * csmoke : ℝ) = _
  rw [lpF]
  ring

lemma auto_score2_M_eq (age : ℤ) (sex : String) (sbp tc hdl : ℝ) (sm : String)
    (hsex : pyStartsWith sex "M" = true) :
    auto_score2 age sex sbp tc hdl sm =
      some (riskFromLp 0.9605 (-0.5699) 0.7476
        (lpM (((age : ℝ) - 60) / 5) ((sbp - 120) / 20) ((tc - 6.0) / 1.0) ((hdl - 1.3) / 0.5)
          (if sm = "Ja" then 1.0 else 0.0))) := by
  unfold auto_score2 calculate_score2
  simp only [coeffRows_M sex hsex, baseRows_M sex hsex, lpFold_Mrows,
    show coeffsM.isEmpty = false from rfl, Bool.false_eq_true, if_false]
  rw [if_pos (show (0:ℝ) < 0.9605 by norm_num),
    if_pos (And.intro (oneSub_uncal_pos _ _) (negLog_uncal_pos _ _))]

lemma auto_score2_F_eq (age : ℤ) (sex : String) (sbp tc hdl : ℝ) (sm : String)
    (hsex : pyStartsWith sex "M" = false) :
    auto_score2 age sex sbp tc hdl sm =
      some (riskFromLp 0.9776 (-0.7380) 0.7019
        (lpF (((age : ℝ) - 60) / 5) ((sbp - 120) / 20) ((tc - 6.0) / 1.0) ((hdl - 1.3) / 0.5)
          (if sm = "Ja" then 1.0 else 0.0))) := by
  unfold auto_score2 calculate_score2
  simp only [coeffRows_F sex hsex, baseRows_F sex hsex, lpFold_Frows,
    show coeffsF.isEmpty = false from rfl, Bool.false_eq_true, if_false]
  rw [if_pos (show (0:ℝ) < 0.9776 by norm_num),
    if_pos (And.intro (oneSub_uncal_pos _ _) (negLog_uncal_pos _ _))]


/-! ### Numeric bounds on exp and log -/


/-! numeric bounds on exp/log needed at the concrete counterexample -/

lemma exp_le_of_le {x c : ℝ} (h : x ≤ c) : Real.exp x ≤ Real.exp c := Real.exp_le_exp.mpr h

-- exp 3 < 20.09
lemma exp_three_lt : Real.exp 3 < 20.09 := by
  have h : Real.exp 3 = Real.exp 1 ^ 3 := by
    rw [← Real.exp_nat_mul]
    norm_num
  rw [h]
  calc Real.exp 1 ^ 3 < 2.7182818286 ^ 3 :=
        pow_lt_pow_left₀ Real.exp_one_lt_d9 (Real.exp_pos 1).le (by norm_num)
  _ < 20.09 := by norm_num

-- exp 9 < 10000
lemma exp_nine_lt : Real.exp 9 < 10000 := by
  have h : Real.exp 9 = Real.exp 1 ^ 9 := by
    rw [← Real.exp_nat_mul]
    norm_num
  rw [h]
  calc Real.exp 1 ^ 9 < 2.72 ^ 9 :=
        pow_lt_pow_left₀ (Real.exp_one_lt_d9.trans (by norm_num)) (Real.exp_pos 1).le (by norm_num)
  _ < 10000 := by norm_num

-- exp 1.6 < 9
lemma exp_one_point_six_lt : Real.exp 1.6 < 9 := by
  have h5 : Real.exp 1.6 ^ 5 = Real.exp 8 := by
    rw [← Real.exp_nat_mul]
    norm_num
  have h8 : Real.exp 8 < 9 ^ 5 := by
    have : Real.exp 8 = Real.exp 1 ^ 8 := by
      rw [← Real.exp_nat_mul]
      norm_num
    rw [this]
    calc Real.exp 1 ^ 8 < 2.72 ^ 8 :=
          pow_lt_pow_left₀ (Real.exp_one_lt_d9.trans (by norm_num)) (Real.exp_pos 1).le (by norm_num)
    _ < 9 ^ 5 := by norm_num
  exact lt_of_pow_lt_pow_left₀ 5 (by norm_num) (h5 ▸ h8)

-- log 1000000 < 14
lemma log_million_lt : Real.log 1000000 < 14 := by
  rw [Real.log_lt_iff_lt_exp (by norm_num)]
  have h : Real.exp 14 = Real.exp 1 ^ 14 := by
    rw [← Real.exp_nat_mul]
    norm_num
  rw [h]
  calc (1000000 : ℝ) < 2.7 ^ 14 := by norm_num
  _ < Real.exp 1 ^ 14 :=
    pow_lt_pow_left₀ (lt_trans (by norm_num) Real.exp_one_gt_d9) (by norm_num) (by norm_num)

-- log 14 < 2.9
lemma log_fourteen_lt : Real.log 14 < 2.9 := by
  rw [Real.log_lt_iff_lt_exp (by norm_num)]
  have h1 : (1.145 : ℝ) ≤ Real.exp 0.145 := by
    have := Real.add_one_le_exp (0.145 : ℝ)
    linarith
  have h2 : Real.exp 0.145 ^ 20 = Real.exp 2.9 := by
    rw [← Real.exp_nat_mul]
    norm_num
  calc (14 : ℝ) < 1.145 ^ 20 := by norm_num
  _ ≤ Real.exp 0.145 ^ 20 := pow_le_pow_left₀ (by norm_num) h1 20
  _ = Real.exp 2.9 := h2

-- the final clamp never saturates with the fallback M parameters:
lemma calRaw_M_bound (lp : ℝ) : calRaw 0.9605 (-0.5699) 0.7476 lp < 0.9999 := by
  unfold calRaw
  set u := uncalClamped 0.9605 lp with hu
  have hm := uncalClamped_mem 0.9605 lp
  rw [← hu] at hm
  have h1u_lo : 1e-6 ≤ 1 - u := by
    have := hm.2
    norm_num at this ⊢
    linarith
  have h1u_pos : (0:ℝ) < 1 - u := by linarith
  have hL_pos : 0 < -Real.log (1 - u) := by
    rw [hu]
    exact negLog_uncal_pos _ _
  have hL_le : -Real.log (1 - u) ≤ Real.log 1000000 := by
    have hstep : Real.log 1e-6 ≤ Real.log (1 - u) := Real.log_le_log (by norm_num) h1u_lo
    have hinv : Real.log (1e-6 : ℝ) = -Real.log 1000000 := by
      rw [show (1e-6 : ℝ) = (1000000 : ℝ)⁻¹ by norm_num, Real.log_inv]
    linarith
  have hz : Real.log (-Real.log (1 - u)) ≤ Real.log 14 :=
    Real.log_le_log hL_pos (hL_le.trans log_million_lt.le)
  have hz14 : Real.log (-Real.log (1 - u)) < 2.9 := lt_of_le_of_lt hz log_fourteen_lt
  have hw : -0.5699 + 0.7476 * Real.log (-Real.log (1 - u)) ≤ 1.6 := by nlinarith [hz14]
  have hexpw : Real.exp (-0.5699 + 0.7476 * Real.log (-Real.log (1 - u))) < 9 :=
    lt_of_le_of_lt (Real.exp_le_exp.mpr hw) exp_one_point_six_lt
  have hfin : Real.exp (-9 : ℝ) < Real.exp (-Real.exp (-0.5699 + 0.7476 * Real.log (-Real.log (1 - u)))) :=
    Real.exp_lt_exp.mpr (by linarith)
  have he9 : (1e-4 : ℝ) < Real.exp (-9 : ℝ) := by
    rw [Real.exp_neg]
    rw [show (1e-4 : ℝ) = (10000 : ℝ)⁻¹ by norm_num]
    exact inv_lt_inv_of_lt (Real.exp_pos 9) exp_nine_lt
  linarith [hfin, he9]


/-! ### SCORE2 claim theorems -/


/-- C5: `calculate_score2` is a total function (the embedding never
raises); it returns `none` exactly when the sex-filtered coefficient
selection is empty, the baseline selection is empty, or the selected
baseline survival S0 is non-positive (the only `math.log` argument not
protected by the clamp); with the built-in fallback tables the result is
never `none`. -/
theorem score2_none_iff (coeffs : List CoeffRow) (baselines : List BaseRow) (age : ℤ)
    (sex : String) (sbp tc hdl : ℝ) (sm : String) :
    (calculate_score2 coeffs baselines age sex sbp tc hdl sm = none ↔
      score2CoeffRows coeffs sex = [] ∨ score2BaseRows baselines sex = [] ∨
      ∃ b l, score2BaseRows baselines sex = b :: l ∧ b.s0_10y ≤ 0) ∧
    auto_score2 age sex sbp tc hdl sm ≠ none := by
  constructor
  · unfold calculate_score2
    by_cases hdf : (score2CoeffRows coeffs sex).isEmpty = true
    · rw [if_pos hdf]
      simp [List.isEmpty_iff.mp hdf]
    · rw [if_neg hdf]
      rw [List.isEmpty_iff] at hdf
      cases hbase : score2BaseRows baselines sex with
      | nil => simp [hbase, hdf]
      | cons b l =>
        by_cases hs0 : 0 < b.s0_10y
        · simp only [hs0, if_true,
            if_pos (And.intro (oneSub_uncal_pos b.s0_10y _) (negLog_uncal_pos b.s0_10y _)),
            hdf, false_or]
          constructor
          · intro h
            exact absurd h (by simp)
          · rintro (h | ⟨b', l', hb, hle⟩)
            · exact absurd h (by simp)
            · rw [List.cons.injEq] at hb
              rw [hb.1] at hs0
              linarith
        · simp only [hs0, if_false, hdf, false_or, true_iff]
          exact Or.inr ⟨b, l, rfl, le_of_not_lt hs0⟩
  · rcases hsex : pyStartsWith sex "M" with _ | _
    · rw [auto_score2_F_eq age sex sbp tc hdl sm hsex]
      simp
    · rw [auto_score2_M_eq age sex sbp tc hdl sm hsex]
      simp



lemma uncalRaw_lo_cex : (1e-9 : ℝ) < uncalRaw 0.9605 2.77838 := by
  unfold uncalRaw
  have hlog : Real.log 0.9605 ≤ -0.0395 := by
    have := Real.log_le_sub_one_of_pos (show (0:ℝ) < 0.9605 by norm_num)
    linarith
  have hexp1 : (1:ℝ) ≤ Real.exp 2.77838 := Real.one_le_exp (by norm_num)
  have hprod : Real.log 0.9605 * Real.exp 2.77838 ≤ -0.0395 := by
    have h1 : Real.log 0.9605 * Real.exp 2.77838 ≤ Real.log 0.9605 * 1 :=
      mul_le_mul_of_nonpos_left hexp1 (by linarith)
    linarith
  have hexp2 : Real.exp (Real.log 0.9605 * Real.exp 2.77838) ≤ Real.exp (-0.0395 : ℝ) :=
    Real.exp_le_exp.mpr hprod
  have hbound : Real.exp (-0.0395 : ℝ) ≤ (1.0395 : ℝ)⁻¹ := by
    rw [Real.exp_neg]
    have h1 : (1.0395:ℝ) ≤ Real.exp 0.0395 := by
      have := Real.add_one_le_exp (0.0395:ℝ)
      linarith
    exact inv_le_inv_of_le (by norm_num) h1
  have hfin : (1.0395:ℝ)⁻¹ < 1 - 1e-9 := by norm_num
  linarith

lemma uncalRaw_hi_cex : uncalRaw 0.9605 2.80678 < 0.999999 := by
  unfold uncalRaw
  have hloglb : (-0.0412 : ℝ) ≤ Real.log 0.9605 := by
    have h1 : Real.log ((0.9605:ℝ)⁻¹) ≤ (0.9605:ℝ)⁻¹ - 1 :=
      Real.log_le_sub_one_of_pos (by norm_num)
    have h2 : Real.log ((0.9605:ℝ)⁻¹) = -Real.log 0.9605 := Real.log_inv _
    have h3 : ((0.9605:ℝ)⁻¹ - 1) ≤ 0.0412 := by norm_num
    linarith
  have hexpub : Real.exp 2.80678 ≤ Real.exp 3 := Real.exp_le_exp.mpr (by norm_num)
  have hprod : (-0.0412 : ℝ) * 20.09 ≤ Real.log 0.9605 * Real.exp 2.80678 := by
    have hexppos : (0:ℝ) ≤ Real.exp 2.80678 := (Real.exp_pos _).le
    have h1 : (-0.0412:ℝ) * Real.exp 2.80678 ≤ Real.log 0.9605 * Real.exp 2.80678 :=
      mul_le_mul_of_nonneg_right hloglb hexppos
    have h2 : (-0.0412:ℝ) * 20.09 ≤ (-0.0412) * Real.exp 2.80678 :=
      mul_le_mul_of_nonpos_left (by linarith [exp_three_lt]) (by norm_num)
    linarith
  have hlow : Real.exp (-0.827708 : ℝ) ≤ Real.exp (Real.log 0.9605 * Real.exp 2.80678) :=
    Real.exp_le_exp.mpr (by linarith)
  have hfin : (1e-6 : ℝ) < Real.exp (-0.827708 : ℝ) := by
    rw [Real.exp_neg, show (1e-6:ℝ) = (1000000:ℝ)⁻¹ by norm_num]
    apply inv_lt_inv_of_lt (Real.exp_pos _)
    calc Real.exp (0.827708 : ℝ) ≤ Real.exp 1 := Real.exp_le_exp.mpr (by norm_num)
    _ < 2.7182818286 := Real.exp_one_lt_d9
    _ < 1000000 := by norm_num
  linarith

/-- C6 counterexample: at age 95 (male, SBP 150, TC 5.8, non-smoker)
raising HDL from 1.3 to 1.8 strictly increases the returned risk
percentage: the age x HDL interaction coefficient (+0.0426) overtakes the
main HDL coefficient (-0.2698) beyond age ~92, so the claimed
monotone non-increase in HDL fails. -/
theorem hdl_monotonicity_cex :
    score2val 95 "Mand" 150 5.8 1.3 "Nej" < score2val 95 "Mand" 150 5.8 1.8 "Nej" := by
  unfold score2val
  rw [auto_score2_M_eq 95 "Mand" 150 5.8 1.3 "Nej" rfl,
    auto_score2_M_eq 95 "Mand" 150 5.8 1.8 "Nej" rfl]
  simp only [Option.getD_some]
  rw [if_neg (show ¬(("Nej":String) = "Ja") by decide)]
  rw [show lpM ((((95:ℤ) : ℝ) - 60) / 5) (((150:ℝ) - 120) / 20) (((5.8:ℝ) - 6.0) / 1.0)
      (((1.3:ℝ) - 1.3) / 0.5) 0.0 = 2.77838 by norm_num [lpM]]
  rw [show lpM ((((95:ℤ) : ℝ) - 60) / 5) (((150:ℝ) - 120) / 20) (((5.8:ℝ) - 6.0) / 1.0)
      (((1.8:ℝ) - 1.3) / 0.5) 0.0 = 2.80678 by norm_num [lpM]]
  exact riskFromLp_strict (by norm_num) (by norm_num) (by norm_num) (by norm_num)
    uncalRaw_lo_cex uncalRaw_hi_cex (calRaw_M_bound _)



/-- C6 amended: with the built-in default coefficients and either sex
and any smoking status, the returned risk percentage is monotonically
non-decreasing in systolic BP for every age up to 114, and monotonically
non-increasing in HDL for every age up to 81; beyond those ages the
age-interaction terms flip the sign of the respective coefficient. -/
theorem score2_monotonicity (age : ℤ) (sex sm : String) (sbp sbp1 sbp2 tc hdl hdl1 hdl2 : ℝ) :
    (age ≤ 114 → sbp1 ≤ sbp2 →
      score2val age sex sbp1 tc hdl sm ≤ score2val age sex sbp2 tc hdl sm) ∧
    (age ≤ 81 → hdl1 ≤ hdl2 →
      score2val age sex sbp tc hdl2 sm ≤ score2val age sex sbp tc hdl1 sm) := by
  constructor
  · intro h1 h2
    have hage : ((age : ℝ) - 60) / 5 ≤ 10.8 := by
      have : (age : ℝ) ≤ 114 := by exact_mod_cast h1
      linarith
    have hsbp : (sbp1 - 120) / 20 ≤ (sbp2 - 120) / 20 := by linarith
    unfold score2val
    rcases hsex : pyStartsWith sex "M" with _ | _
    · rw [auto_score2_F_eq age sex sbp1 tc hdl sm hsex,
        auto_score2_F_eq age sex sbp2 tc hdl sm hsex]
      simp only [Option.getD_some]
      apply riskFromLp_mono (by norm_num) (by norm_num) (by norm_num)
      have key : (0:ℝ) ≤ ((sbp2 - 120) / 20 - (sbp1 - 120) / 20) *
          (0.3131 - 0.0277 * (((age : ℝ) - 60) / 5)) :=
        mul_nonneg (by linarith) (by linarith)
      unfold lpF
      nlinarith [key]
    · rw [auto_score2_M_eq age sex sbp1 tc hdl sm hsex,
        auto_score2_M_eq age sex sbp2 tc hdl sm hsex]
      simp only [Option.getD_some]
      apply riskFromLp_mono (by norm_num) (by norm_num) (by norm_num)
      have key : (0:ℝ) ≤ ((sbp2 - 120) / 20 - (sbp1 - 120) / 20) *
          (0.2777 - 0.0255 * (((age : ℝ) - 60) / 5)) :=
        mul_nonneg (by linarith) (by linarith)
      unfold lpM
      nlinarith [key]
  · intro h1 h2
    have hage : ((age : ℝ) - 60) / 5 ≤ 4.2 := by
      have : (age : ℝ) ≤ 81 := by exact_mod_cast h1
      linarith
    have hhdl : (hdl1 - 1.3) / 0.5 ≤ (hdl2 - 1.3) / 0.5 :=
      (div_le_div_right (by norm_num)).mpr (by linarith)
    unfold score2val
    rcases hsex : pyStartsWith sex "M" with _ | _
    · rw [auto_score2_F_eq age sex sbp tc hdl1 sm hsex,
        auto_score2_F_eq age sex sbp tc hdl2 sm hsex]
      simp only [Option.getD_some]
      apply riskFromLp_mono (by norm_num) (by norm_num) (by norm_num)
      have key : (0:ℝ) ≤ ((hdl2 - 1.3) / 0.5 - (hdl1 - 1.3) / 0.5) *
          (0.2606 - 0.0613 * (((age : ℝ) - 60) / 5)) :=
        mul_nonneg (by linarith) (by linarith)
      unfold lpF
      nlinarith [key]
    · rw [auto_score2_M_eq age sex sbp tc hdl1 sm hsex,
        auto_score2_M_eq age sex sbp tc hdl2 sm hsex]
      simp only [Option.getD_some]
      apply riskFromLp_mono (by norm_num) (by norm_num) (by norm_num)
      have key : (0:ℝ) ≤ ((hdl2 - 1.3) / 0.5 - (hdl1 - 1.3) / 0.5) *
          (0.2698 - 0.0426 * (((age : ℝ) - 60) / 5)) :=
        mul_nonneg (by linarith) (by linarith)
      unfold lpM
      nlinarith [key]


/-- C6 amended witness: monotone in SBP at age 58 (male) and
anti-monotone in HDL at age 58 (female). -/
theorem score2_monotonicity_witness :
    score2val 58 "Mand" 140 5.8 1.3 "Nej" ≤ score2val 58 "Mand" 160 5.8 1.3 "Nej" ∧
    score2val 58 "Kvinde" 150 5.8 1.8 "Nej" ≤ score2val 58 "Kvinde" 150 5.8 1.3 "Nej" :=
  ⟨(score2_monotonicity 58 "Mand" "Nej" 0 140 160 5.8 1.3 0 0).1 (by norm_num) (by norm_num),
   (score2_monotonicity 58 "Kvinde" "Nej" 150 0 0 5.8 0 1.3 1.8).2 (by norm_num) (by norm_num)⟩


/-- Modelled from the spec (§4.3 / Scenario A): the linear predictor for
age 58, male, SBP 150, TC 5.8, HDL 1.3, non-smoker, written from the
spec's centering/scaling and the nine default male coefficients. -/
noncomputable def specA_lp : ℝ :=
  0.3742 * (((58 : ℝ) - 60) / 5) + 0.2777 * (((150 : ℝ) - 120) / 20) +
    0.1458 * (((5.8 : ℝ) - 6.0) / 1.0) + (-0.2698) * (((1.3 : ℝ) - 1.3) / 0.5) +
    0.6012 * 0 + (-0.0255) * ((((58 : ℝ) - 60) / 5) * (((150 : ℝ) - 120) / 20)) +
    (-0.0281) * ((((58 : ℝ) - 60) / 5) * (((5.8 : ℝ) - 6.0) / 1.0)) +
    0.0426 * ((((58 : ℝ) - 60) / 5) * (((1.3 : ℝ) - 1.3) / 0.5)) +
    (-0.0755) * ((((58 : ℝ) - 60) / 5) * 0)

/-- Modelled from the spec (§4.3 step 3): uncalibrated risk
`1 - exp(ln S0 · exp lp)` clamped to (1e-9, 0.999999). -/
noncomputable def specA_uncal : ℝ :=
  max 1e-9 (min 0.999999 (1 - Real.exp (Real.log 0.9605 * Real.exp specA_lp)))

/-- Modelled from the spec (§4.3 steps 4–5 / Scenario A): recalibrate via
`1 - exp(-exp(scale1 + scale2 · ln(-ln(1 - uncal))))` and return
`100 · clamp(calibrated, 0, 0.9999)`. -/
noncomputable def specScenarioA : ℝ :=
  100 * max 0 (min 0.9999
    (1 - Real.exp (-Real.exp ((-0.5699) + 0.7476 * Real.log (-Real.log (1 - specA_uncal))))))

/-- C1: on Scenario A (age 58, male, SBP 150, TC 5.8, HDL 1.3,
non-smoker) the calculator returns exactly the percentage prescribed by
the specification's transform with the built-in default male
coefficients and baseline. -/
theorem scenarioA_exact :
    auto_score2 58 "Mand" 150 5.8 1.3 "Nej" = some specScenarioA := by
  rw [auto_score2_M_eq 58 "Mand" 150 5.8 1.3 "Nej" rfl]
  rw [if_neg (show ¬(("Nej":String) = "Ja") by decide)]
  have hlp : lpM ((((58 : ℤ) : ℝ) - 60) / 5) (((150:ℝ) - 120) / 20) (((5.8:ℝ) - 6.0) / 1.0)
      (((1.3:ℝ) - 1.3) / 0.5) 0.0 = specA_lp := by
    norm_num [lpM, specA_lp]
  unfold riskFromLp calRaw uncalClamped uncalRaw clampR specScenarioA specA_uncal
  rw [hlp]


end HTN
